import Mathlib

/-!
# qld: packet transport and handshake of a MySQL wire-protocol server

A shallow embedding of `connection.go`, `command.go`, `const.go` and the
connection registry of `server.go`.

Modelling conventions.

* A byte is a natural number; every producer in the source keeps it below 256
  and conversions `byte(x)` are written `x % 256`.
* `bytes.Buffer` is the list of its unread bytes.
* The embedded `net.Conn` is three fields of `connection`: `input` (bytes the
  peer has sent and that are not read yet), `output` (bytes delivered to the
  peer so far) and `room` (how many more bytes the peer accepts before `Write`
  fails).  `Read` hands over as many of the requested bytes as the peer has
  sent and reports `io.EOF` when none is left.
* A Go function returning `error` returns an `Outcome`: `ok` for `nil`,
  `error e` for a returned error, `abort` for a run-time panic that leaves the
  function.
* A `for` loop is a function with a fuel argument; the function that calls it
  supplies fuel and returns `none` if it were to run out (`readPacket_total`
  and `writePacket_total` show that it never does for the two packet loops;
  every result about the command loop states the value it returns).
* The registry of `server.go` is followed through accept, finish and shutdown
  events one after the other; the interleaving of goroutines is not modelled.
* Logging (`glog`) has no effect on the state and is left out.  Memory is
  unbounded, so `bytes.Buffer` never panics with `ErrTooLarge` and the
  `recover` of `readPacket` has nothing to catch.
-/

namespace qld

/-! ## const.go -/

def defaultHeaderSize : Nat := 4
def defaultProtocolVersion : Nat := 0x0a
def defaultMaxPacketSize : Nat := (1 <<< 24) - 1

def okPacket : Nat := 0x00
def eofPacket : Nat := 0xfe
def errPacket : Nat := 0xff

def comSleep : Nat := 0
def comQuit : Nat := 1
def comInitDB : Nat := 2
def comComQuery : Nat := 3
def comFieldList : Nat := 4
def comCreateDB : Nat := 5
def comDropDB : Nat := 6
def comRefresh : Nat := 7
def comShutdown : Nat := 8
def comStatistics : Nat := 9
def comProcessInfo : Nat := 10
def comConnect : Nat := 11
def comProcessKill : Nat := 12
def comDebug : Nat := 13
def comPing : Nat := 14
def comTime : Nat := 15
def comDelayedInsert : Nat := 16
def comChangeUser : Nat := 17
def comBinlogDump : Nat := 18
def comTableDump : Nat := 19
def comConnectOut : Nat := 20
def comRegisterSlave : Nat := 21
def comStmtPrepare : Nat := 22
def comStmtExecute : Nat := 23
def comStmtSendLongData : Nat := 24
def comStmtClose : Nat := 25
def comStmtReset : Nat := 26
def comSetOption : Nat := 27
def comStmtFetch : Nat := 28
def comDaemon : Nat := 29
def comBinlogDumpGTID : Nat := 30
def comResetConnection : Nat := 31
def comEnd : Nat := 32

def commandName : List String := [
  "Sleep",
  "Quit",
  "Init DB",
  "Query",
  "Field List",
  "Create DB",
  "Drop DB",
  "Refresh",
  "Shutdown",
  "Statistics",
  "Processlist",
  "Connect",
  "Kill",
  "Debug",
  "Ping",
  "Time",
  "Delayed insert",
  "Change user",
  "Binlog Dump",
  "Table Dump",
  "Connect Out",
  "Register Slave",
  "Prepare",
  "Execute",
  "Long Data",
  "Close stmt",
  "Reset stmt",
  "Set option",
  "Fetch",
  "Daemon",
  "Binlog Dump GTID",
  "Reset Connection",
  "Error"]

def flagNotNull : Nat := 1 <<< 0
def flagPriKey : Nat := 1 <<< 1
def flagUniqueKey : Nat := 1 <<< 2
def flagMultipleKey : Nat := 1 <<< 3
def flagBlob : Nat := 1 <<< 4
def flagUnsigned : Nat := 1 <<< 5
def flagZeroFill : Nat := 1 <<< 6
def flagBinary : Nat := 1 <<< 7
def flagEnum : Nat := 1 <<< 8
def flagAutoIncrement : Nat := 1 <<< 9
def flagTimestamp : Nat := 1 <<< 10
def flagSet : Nat := 1 <<< 11
def flagNoDefaultValue : Nat := 1 <<< 12
def flagOnUpdateNow : Nat := 1 <<< 13
def flagPartKey : Nat := 1 <<< 14
def flagNum : Nat := 1 <<< 15
def flagIntern1 : Nat := 1 <<< 16
def flagIntern2 : Nat := 1 <<< 17
def flagGetFixedFields : Nat := 1 <<< 18
def flagFieldInPartFunc : Nat := 1 <<< 19

def refreshGrant : Nat := 1 <<< 0
def refreshLog : Nat := 1 <<< 1
def refreshTables : Nat := 1 <<< 2
def refreshHosts : Nat := 1 <<< 3
def refreshStatus : Nat := 1 <<< 4
def refreshThreads : Nat := 1 <<< 5
def refreshSlave : Nat := 1 <<< 6
def refreshMaster : Nat := 1 <<< 7
def refreshErrorLog : Nat := 1 <<< 8
def refreshEngineLog : Nat := 1 <<< 9
def refreshBinaryLog : Nat := 1 <<< 10
def refreshRelayLog : Nat := 1 <<< 11
def refreshGeneralLog : Nat := 1 <<< 12
def refreshSlowLog : Nat := 1 <<< 13
def refreshReadLock : Nat := 1 <<< 14
def refreshFast : Nat := 1 <<< 15
def refreshQueryCache : Nat := 1 <<< 16
def refreshQueryCacheFree : Nat := 1 <<< 17
def refreshDesKeyFile : Nat := 1 <<< 18
def refreshUserResources : Nat := 1 <<< 19
def refreshForExport : Nat := 1 <<< 20

def clientLongPassword : Nat := 1 <<< 0
def clientFoundRows : Nat := 1 <<< 1
def clientLongFlag : Nat := 1 <<< 2
def clientConnectWithDB : Nat := 1 <<< 3
def clientNoSchema : Nat := 1 <<< 4
def clientCompress : Nat := 1 <<< 5
def clientODBC : Nat := 1 <<< 6
def clientLocalFiles : Nat := 1 <<< 7
def clientIgnoreSpace : Nat := 1 <<< 8
def clientProtocol41 : Nat := 1 <<< 9
def clientInteractive : Nat := 1 <<< 10
def clientSSL : Nat := 1 <<< 11
def clientIgnoreSIGPIPE : Nat := 1 <<< 12
def clientTransactions : Nat := 1 <<< 13
def clientReserved : Nat := 1 <<< 14
def clientSecureConnection : Nat := 1 <<< 15
def clientMultiStatements : Nat := 1 <<< 16
def clientMultiResults : Nat := 1 <<< 17
def clientPSMultiResults : Nat := 1 <<< 18
def clientPluginAuth : Nat := 1 <<< 19
def clientConnectAttrs : Nat := 1 <<< 20
def clientPluginAuthLenencClientData : Nat := 1 <<< 21
def clientCanHandleExpiredPasswords : Nat := 1 <<< 22
def clientSSLVerifyServerCert : Nat := 1 <<< 30
def clientRememberOptions : Nat := 1 <<< 31

def serverCapabilityFlags : Nat :=
  clientLongPassword |||
  clientFoundRows |||
  clientConnectWithDB |||
  clientLocalFiles |||
  clientProtocol41 |||
  clientInteractive |||
  clientSecureConnection

def serverStatusInTrans : Nat := 1 <<< 0
def serverStatusAutocommit : Nat := 1 <<< 1
def serverStatusUnused1 : Nat := 1 <<< 2
def serverMoreResultsExists : Nat := 1 <<< 3
def serverQueryNoGoodIndexUsed : Nat := 1 <<< 4
def serverQueryNoIndexUsed : Nat := 1 <<< 5
def serverStatusCursorExists : Nat := 1 <<< 6
def serverStatusLastRowSent : Nat := 1 <<< 7
def serverStatusDBDropped : Nat := 1 <<< 8
def serverStatusNoBackslashEscapes : Nat := 1 <<< 9
def serverStatusMetadataChanged : Nat := 1 <<< 10
def serverQueryWasSlow : Nat := 1 <<< 11
def serverPSOutParams : Nat := 1 <<< 12
def serverStatusInTransReadOnly : Nat := 1 <<< 13

def collationLatin1Swedish : Nat := 0x08
def collationUtf8General : Nat := 0x21
def collationBinary : Nat := 0x3f

/-! ## Errors and outcomes -/

/-- Modelled from the spec: the SQL-error type (declared outside the files at
hand) carries a numeric code, a state string and a message text. -/
structure SQLError where
  Code : Nat
  State : List Nat
  Message : List Nat
deriving DecidableEq, Repr

/-- The error values the functions return.  `errNotProtocol41` is a package
variable declared outside the files at hand; it is kept as a constant of its
own.  `writeError` is the error of a `net.Conn.Write` that the peer refuses. -/
inductive Error where
  | EOF
  | Errorf (format : String) (args : List Nat)
  | errNotProtocol41
  | writeError
  | sql (e : SQLError)
deriving DecidableEq, Repr

inductive Outcome where
  | ok
  | error (e : Error)
  | abort
deriving DecidableEq, Repr

/-! ## bytes.Buffer -/

abbrev Buffer := List Nat

def Buffer.Reset (_ : Buffer) : Buffer := []

/-- Method `Next(n)`: the next `n` unread bytes, or all of them when fewer remain. -/
def Buffer.Next (b : Buffer) (n : Nat) : List Nat × Buffer :=
  (b.take n, b.drop n)

def Buffer.WriteByte (b : Buffer) (x : Nat) : Option Error × Buffer :=
  (none, b ++ [x])

def Buffer.Write (b : Buffer) (p : List Nat) : (Nat × Option Error) × Buffer :=
  ((p.length, none), b ++ p)

def Buffer.ReadByte (b : Buffer) : (Nat × Option Error) × Buffer :=
  match b with
  | [] => ((0, some Error.EOF), [])
  | x :: r => ((x, none), r)

/-- Function `bytes.IndexByte`: index of the first `c` in `s`, or `-1`. -/
def IndexByte : List Nat → Nat → Int
  | [], _ => -1
  | x :: r, c =>
    if x = c then 0
    else
      let i := IndexByte r c
      if i < 0 then -1 else i + 1

/-- Method `ReadBytes(delim)`: the bytes up to and including the first `delim`; when
there is none, all unread bytes together with `io.EOF`. -/
def Buffer.ReadBytes (b : Buffer) (delim : Nat) : (List Nat × Option Error) × Buffer :=
  let i := IndexByte b delim
  if i < 0 then ((b, some Error.EOF), [])
  else ((b.take (i + 1).toNat, none), b.drop (i + 1).toNat)

/-- Function `binary.LittleEndian.Uint32`; `none` is the index-out-of-range panic on a
slice shorter than four bytes. -/
def LittleEndian.Uint32 (b : List Nat) : Option Nat :=
  match b with
  | b0 :: b1 :: b2 :: b3 :: _ =>
    some ((b0 ||| (b1 <<< 8) ||| (b2 <<< 16) ||| (b3 <<< 24)) % 2 ^ 32)
  | _ => none

/-- The call `binary.Write(&buf, binary.LittleEndian, uint16(v))`. -/
def Buffer.WriteUint16LE (b : Buffer) (v : Nat) : Option Error × Buffer :=
  let u := v % 2 ^ 16
  (none, b ++ [u % 256, (u >>> 8) % 256])

/-! ## connection.go: the session and its stream -/

structure connection where
  input : List Nat
  output : List Nat
  room : Nat
  id : Int
  buf : Buffer
  cipher : List Nat
  sequence : Nat
  clientCapabilities : Nat
  username : List Nat
  maxPktSize : Nat
  charset : Nat
  schema : List Nat
  authResp : List Nat
deriving DecidableEq, Repr

/-- Method `net.Conn.Read(p)` with `len(p) = n`. -/
def connection.Read (c : connection) (n : Nat) : (List Nat × Option Error) × connection :=
  if n = 0 then (([], none), c)
  else if c.input = [] then (([], some Error.EOF), c)
  else ((c.input.take n, none), { c with input := c.input.drop n })

/-- Method `net.Conn.Write(p)`: all of `p` when the peer still accepts that much,
otherwise the part it accepts and an error. -/
def connection.Write (c : connection) (p : List Nat) : (Nat × Option Error) × connection :=
  if p.length ≤ c.room then
    ((p.length, none), { c with output := c.output ++ p, room := c.room - p.length })
  else
    ((c.room, some Error.writeError),
      { c with output := c.output ++ p.take c.room, room := 0 })

/-- The call `io.CopyN(&this.buf, this, n)`: appends up to `n` bytes of the stream to the
buffer; fewer than `n` is `io.EOF`. -/
def connection.CopyN (c : connection) (n : Nat) : (Nat × Option Error) × connection :=
  let data := c.input.take n
  let c := { c with buf := c.buf ++ data, input := c.input.drop n }
  if data.length = n then ((n, none), c) else ((data.length, some Error.EOF), c)

def connection.writePacketLoop : Nat → connection → Option (Outcome × connection)
  | 0, _ => none
  | fuel + 1, c =>
    let (data, b) := Buffer.Next c.buf defaultMaxPacketSize
    let c := { c with buf := b }
    let pktLen := data.length
    let header : List Nat :=
      [pktLen % 256, (pktLen >>> 8) % 256, (pktLen >>> 16) % 256, c.sequence]
    match c.Write header with
    | ((_, some err), c) => some (Outcome.error err, c)
    | ((n, none), c) =>
      if n ≠ header.length then
        some (Outcome.error (Error.Errorf
          "Connection/writePacket: Error writing header. Expect %d bytes. Got %d."
          [header.length, n]), c)
      else
        match c.Write data with
        | ((_, some err), c) => some (Outcome.error err, c)
        | ((n, none), c) =>
          if n ≠ data.length then
            some (Outcome.error (Error.Errorf
              "Connection/writePacket: Error writing body. Expect %d bytes. Got %d."
              [data.length, n]), c)
          else
            let c := { c with sequence := (c.sequence + 1) % 256 }
            if pktLen < defaultMaxPacketSize then some (Outcome.ok, c)
            else connection.writePacketLoop fuel c

def connection.writePacket (c : connection) : Option (Outcome × connection) :=
  c.writePacketLoop (c.buf.length / defaultMaxPacketSize + 1)

def connection.readPacketLoop : Nat → connection → Option (Outcome × connection)
  | 0, _ => none
  | fuel + 1, c =>
    match c.Read defaultHeaderSize with
    | ((_, some err), c) => some (Outcome.error err, c)
    | ((header, none), c) =>
      if header.length ≠ defaultHeaderSize then
        some (Outcome.error (Error.Errorf
          "Connection/readPacket: Error reading header. Expect %d bytes. Got %d."
          [defaultHeaderSize, header.length]), c)
      else if header.getD 3 0 ≠ c.sequence then
        some (Outcome.error (Error.Errorf
          "Connecton/readPacket: sequence number mismatch" []), c)
      else
        let pktLen := header.getD 0 0 ||| (header.getD 1 0 <<< 8) ||| (header.getD 2 0 <<< 16)
        match c.CopyN pktLen with
        | ((_, some err), c) => some (Outcome.error err, c)
        | ((n, none), c) =>
          if n ≠ pktLen then
            some (Outcome.error (Error.Errorf
              "Connection/readPacket: Error reading body. Expect %d bytes. Got %d."
              [pktLen, n]), c)
          else
            let c := { c with sequence := (c.sequence + 1) % 256 }
            if pktLen < defaultMaxPacketSize then some (Outcome.ok, c)
            else connection.readPacketLoop fuel c

def connection.readPacket (c : connection) : Option (Outcome × connection) :=
  let c := { c with buf := Buffer.Reset c.buf }
  c.readPacketLoop (c.input.length / defaultHeaderSize + 1)

/-- Conversion `byte(x)` of a Go `int`. -/
def byteOfInt (x : Int) : Nat := (x % 256).toNat

def connection.initHandshakeV10 (c : connection) : Outcome × connection :=
  let c := { c with buf := Buffer.Reset c.buf }
  match Buffer.WriteByte c.buf defaultProtocolVersion with
  | (some err, b) => (Outcome.error err, { c with buf := b })
  | (none, b) =>
  let c := { c with buf := b }
  match Buffer.Write c.buf [48, 46, 49, 46, 48, 0] with
  | ((_, some err), b) => (Outcome.error err, { c with buf := b })
  | ((n, none), b) =>
  let c := { c with buf := b }
  if n ≠ 6 then
    (Outcome.error (Error.Errorf
      "Connection/writeInitialHandshakePacket: Error writing server version. Expecting %d, got %d"
      [6, n]), c)
  else
  match Buffer.Write c.buf
    [byteOfInt c.id, byteOfInt (c.id >>> (8 : Nat)), byteOfInt (c.id >>> (16 : Nat)),
      byteOfInt (c.id >>> (24 : Nat))] with
  | ((_, some err), b) => (Outcome.error err, { c with buf := b })
  | ((n, none), b) =>
  let c := { c with buf := b }
  if n ≠ 4 then
    (Outcome.error (Error.Errorf
      "Connection/writeInitialHandshakePacket: Error writing connection id. Expecting %d, got %d"
      [4, n]), c)
  else
  match Buffer.Write c.buf (c.cipher.take 8) with
  | ((_, some err), b) => (Outcome.error err, { c with buf := b })
  | ((n, none), b) =>
  let c := { c with buf := b }
  if n ≠ 8 then
    (Outcome.error (Error.Errorf
      "Connection/writeInitialHandshakePacket: Error writing cipher. Expecting %d, got %d"
      [8, n]), c)
  else
  match Buffer.WriteByte c.buf 0x00 with
  | (some err, b) => (Outcome.error err, { c with buf := b })
  | (none, b) =>
  let c := { c with buf := b }
  match Buffer.WriteUint16LE c.buf serverCapabilityFlags with
  | (some err, b) => (Outcome.error err, { c with buf := b })
  | (none, b) =>
  let c := { c with buf := b }
  match Buffer.Write c.buf
    [collationUtf8General, 0, 0, 0, 0, 0, 0, 0, 0, 0, 0, 0, 0, 0, 0, 0] with
  | ((_, some err), b) => (Outcome.error err, { c with buf := b })
  | ((n, none), b) =>
  let c := { c with buf := b }
  if n ≠ 16 then
    (Outcome.error (Error.Errorf
      "Connection/writeInitialHandshakePacket: Error writing charset, status and capability flags. Expecting %d, got %d"
      [16, n]), c)
  else
  match Buffer.Write c.buf ((c.cipher.drop 8).take 12) with
  | ((_, some err), b) => (Outcome.error err, { c with buf := b })
  | ((n, none), b) =>
  let c := { c with buf := b }
  if n ≠ 12 then
    (Outcome.error (Error.Errorf
      "Connection/writeInitialHandshakePacket: Error writing cipher. Expecting %d, got %d"
      [12, n]), c)
  else
  match Buffer.WriteByte c.buf 0x00 with
  | (some err, b) => (Outcome.error err, { c with buf := b })
  | (none, b) =>
  (Outcome.ok, { c with buf := b })

/-- The last step of `parseHandshakeResponse41`, from the schema name to the
end of the function; every branch of the authentication response runs into it. -/
def connection.parseSchema (c : connection) : Outcome × connection :=
  if serverCapabilityFlags &&& clientConnectWithDB ≠ 0 then
    match Buffer.ReadBytes c.buf 0x00 with
    | ((tmp, err), b) =>
      if err ≠ none ∧ err ≠ some Error.EOF then
        (Outcome.error (err.getD Error.EOF), { c with buf := b })
      else (Outcome.ok, { c with buf := b, schema := tmp })
  else (Outcome.ok, c)

/-- The step of `parseHandshakeResponse41` that follows the username: the
authentication response, in the encoding the server capabilities select, then
the schema. -/
def connection.parseAuthResp (c : connection) : Outcome × connection :=
  if serverCapabilityFlags &&& clientPluginAuthLenencClientData ≠ 0 then
    let c := { c with authResp := [] }
    c.parseSchema
  else if serverCapabilityFlags &&& clientSecureConnection ≠ 0 then
    match Buffer.ReadByte c.buf with
    | ((_, some err), b) => (Outcome.error err, { c with buf := b })
    | ((n, none), b) =>
    let c := { c with buf := b }
    let (authResp, b) := Buffer.Next c.buf n
    let c := { c with buf := b }
    if authResp.length ≠ n then
      (Outcome.error (Error.Errorf
        "Connection/readHandshakeResponse41: Insufficient data length. Expect %d, received %d"
        [n, authResp.length]), c)
    else
    let c := { c with authResp := authResp }
    c.parseSchema
  else
    match Buffer.ReadBytes c.buf 0x00 with
    | ((authResp, err), b) =>
    let c := { c with buf := b }
    if err ≠ some Error.EOF ∧ err ≠ none then
      (Outcome.error (err.getD Error.EOF), c)
    else
    let c := { c with authResp := authResp }
    c.parseSchema

def connection.parseHandshakeResponse41 (c : connection) : Outcome × connection :=
  let (b4, b) := Buffer.Next c.buf 4
  let c := { c with buf := b }
  match LittleEndian.Uint32 b4 with
  | none => (Outcome.abort, c)
  | some caps =>
  let c := { c with clientCapabilities := caps }
  if c.clientCapabilities &&& clientProtocol41 = 0 then
    (Outcome.error Error.errNotProtocol41, c)
  else
  let (b4, b) := Buffer.Next c.buf 4
  let c := { c with buf := b }
  match LittleEndian.Uint32 b4 with
  | none => (Outcome.abort, c)
  | some size =>
  let c := { c with maxPktSize := size }
  let c := if c.maxPktSize = 0 then { c with maxPktSize := defaultMaxPacketSize } else c
  let (b1, b) := Buffer.Next c.buf 1
  let c := { c with buf := b }
  match b1 with
  | [] => (Outcome.abort, c)
  | ch :: _ =>
  let c := { c with charset := ch }
  let (_, b) := Buffer.Next c.buf 23
  let c := { c with buf := b }
  match Buffer.ReadBytes c.buf 0x00 with
  | ((_, some err), b) => (Outcome.error err, { c with buf := b })
  | ((tmp, none), b) =>
  let c := { c with buf := b, username := tmp }
  c.parseAuthResp

/-! ## Wire format, as the specification words it -/

/-- A frame header: the payload length in three little-endian bytes, then the
sequence byte. -/
def frameHeader (len : Nat) (seq : Nat) : List Nat :=
  [len % 256, len / 256 % 256, len / 65536 % 256, seq]

/-- The byte stream of consecutive frames with the given payloads, the first
one carrying sequence byte `s mod 256`, the next `(s + 1) mod 256`, and so on. -/
def frameStream (s : Nat) : List (List Nat) → List Nat
  | [] => []
  | f :: fs => frameHeader f.length (s % 256) ++ f ++ frameStream (s + 1) fs

/-- Bytes `p[i*MAX .. min((i+1)*MAX, len p))` of a payload. -/
def chunkAt (p : List Nat) (i : Nat) : List Nat :=
  (p.drop (i * defaultMaxPacketSize)).take defaultMaxPacketSize

/-- The `len p / MAX + 1` chunks a payload is cut into. -/
def chunks (p : List Nat) : List (List Nat) :=
  (List.range (p.length / defaultMaxPacketSize + 1)).map (chunkAt p)

/-- Number of bytes on the wire for a payload: the payload and one 4-byte
header per frame. -/
def wireSize (p : List Nat) : Nat :=
  p.length + 4 * (p.length / defaultMaxPacketSize + 1)

/-- The session after a `writePacket` that got all its frames through. -/
def connection.afterWrite (c : connection) : connection :=
  { c with
    buf := [],
    output := c.output ++ frameStream c.sequence (chunks c.buf),
    room := c.room - wireSize c.buf,
    sequence := (c.sequence + c.buf.length / defaultMaxPacketSize + 1) % 256 }

/-! ## command.go -/

structure command where
  cmd : Nat
  cmdName : String
  stmt : List Nat
deriving DecidableEq, Repr

/-- Method `parseCommand`; `abort` is the index-out-of-range panic of `data.Next(1)[0]`
on an empty payload or of `commandName[this.cmd]` beyond the table. -/
def command.parseCommand (cmd : command) (data : Buffer) : Outcome × command :=
  let (b, data) := Buffer.Next data 1
  match b with
  | [] => (Outcome.abort, cmd)
  | x :: _ =>
    let cmd := { cmd with cmd := x }
    match commandName[cmd.cmd]? with
    | none => (Outcome.abort, cmd)
    | some name =>
      let cmd := { cmd with cmdName := name }
      match Buffer.ReadBytes data 0x00 with
      | ((tmp, err), _) =>
        if err ≠ none ∧ err ≠ some Error.EOF then
          (Outcome.error (err.getD Error.EOF), cmd)
        else
          (Outcome.ok, { cmd with stmt := tmp })

/-- Function `newCommand`: the pair `(*command, error)`; a panic is `(none, abort)`. -/
def newCommand (data : Buffer) : Option command × Outcome :=
  let cmd : command := { cmd := 0, cmdName := "", stmt := [] }
  match cmd.parseCommand data with
  | (Outcome.ok, cmd) => (some cmd, Outcome.ok)
  | (r, _) => (none, r)

def connection.nextCommand (c : connection) :
    Option ((Option command × Outcome) × connection) :=
  let c := { c with sequence := 0 }
  match c.readPacket with
  | none => none
  | some (Outcome.ok, c) => some (newCommand c.buf, c)
  | some (r, c) => some ((none, r), c)

/-! ## Sample sessions -/

/-- A session with the given stream input, buffer content, sequence number and
write room; every other field blank. -/
def sampleConn (input buf : List Nat) (seq room : Nat) : connection :=
  { input := input, output := [], room := room, id := 1, buf := buf,
    cipher := [1, 2, 3, 4, 5, 6, 7, 8, 9, 10, 11, 12, 13, 14, 15, 16, 17, 18, 19, 20],
    sequence := seq, clientCapabilities := 0, username := [], maxPktSize := 0,
    charset := 0, schema := [], authResp := [] }

/-- A handshake response with capability flags `0x00000200` (protocol-41
only), max packet size `0x01000000`, charset `0x21`, 23 reserved zero bytes,
the NUL-terminated username `root`, and an empty authentication response. -/
def rootResponse : List Nat :=
  [0x00, 0x02, 0x00, 0x00] ++ [0x00, 0x00, 0x00, 0x01] ++ [0x21] ++ List.replicate 23 0
    ++ [114, 111, 111, 116, 0x00] ++ [0x00]

/-- The response `rootResponse` cut off after the four bytes `root`: the
username has no terminator. -/
def unterminatedResponse : List Nat :=
  [0x00, 0x02, 0x00, 0x00] ++ [0x00, 0x00, 0x00, 0x01] ++ [0x21] ++ List.replicate 23 0
    ++ [114, 111, 111, 116]

/-! ## connection.go: response packets and the handshake as a whole -/

/-- The bytes of an ASCII string. -/
def bytesOf (s : String) : List Nat := s.toList.map Char.toNat

/-- Modelled from the spec: the entry `SQLErrors[1047]` of the error table
(declared outside the files at hand) is the fixed unknown-command error, with
code 1047, state `HY000` and message `Unknown command`. -/
def SQLErrors_1047 : SQLError :=
  { Code := 1047,
    State := [72, 89, 48, 48, 48],
    Message := [85, 110, 107, 110, 111, 119, 110, 32, 99, 111, 109, 109, 97, 110, 100] }

def command.execute (cmd : command) : Outcome × command :=
  if cmd.cmd = comQuit then (Outcome.ok, cmd)
  else (Outcome.error (Error.sql SQLErrors_1047), cmd)

def connection.writeErrPacket (c : connection) (e : Error) : Option (Outcome × connection) :=
  match e with
  | Error.sql sqlerr =>
    let c := { c with buf := Buffer.Reset c.buf }
    match Buffer.WriteByte c.buf errPacket with
    | (some err, b) => some (Outcome.error err, { c with buf := b })
    | (none, b) =>
    let c := { c with buf := b }
    match Buffer.Write c.buf [sqlerr.Code % 256, (sqlerr.Code >>> 8) % 256] with
    | ((_, some err), b) => some (Outcome.error err, { c with buf := b })
    | ((n, none), b) =>
    let c := { c with buf := b }
    if n ≠ 2 then
      some (Outcome.error (Error.Errorf
        "Connection/writeErrPacket: Error writing error code. Expecting %d, got %d" [2, n]), c)
    else
    match Buffer.WriteByte c.buf 35 with
    | (some err, b) => some (Outcome.error err, { c with buf := b })
    | (none, b) =>
    let c := { c with buf := b }
    match Buffer.Write c.buf (sqlerr.State.take 5) with
    | ((_, some err), b) => some (Outcome.error err, { c with buf := b })
    | ((n, none), b) =>
    let c := { c with buf := b }
    if n ≠ 5 then
      some (Outcome.error (Error.Errorf
        "Connection/writeErrPacket: Error writing sql state. Expecting %d, got %d" [5, n]), c)
    else
    match Buffer.Write c.buf sqlerr.Message with
    | ((_, some err), b) => some (Outcome.error err, { c with buf := b })
    | ((n, none), b) =>
    let c := { c with buf := b }
    if n ≠ sqlerr.Message.length then
      some (Outcome.error (Error.Errorf
        "Connection/writeErrPacket: Error writing sql state. Expecting %d, got %d"
        [sqlerr.Message.length, n]), c)
    else c.writePacket
  | _ =>
    some (Outcome.error (Error.Errorf
      "Connection/writeErrPacket: Cannot type assert sql error" []), c)

def connection.writeOkPacket (c : connection) : Option (Outcome × connection) :=
  let c := { c with buf := Buffer.Reset c.buf }
  match Buffer.WriteByte c.buf okPacket with
  | (some err, b) => some (Outcome.error err, { c with buf := b })
  | (none, b) =>
  let c := { c with buf := b }
  match Buffer.Write c.buf [0, 0, 0, 0, 0, 0] with
  | ((_, some err), b) => some (Outcome.error err, { c with buf := b })
  | ((n, none), b) =>
  let c := { c with buf := b }
  if n ≠ 6 then
    some (Outcome.error (Error.Errorf
      "Connection/writeOkPacket: Error writing okPacket. Expecting %d, got %d" [6, n]), c)
  else c.writePacket

def connection.handlePlainHandshake (c : connection) : Option (Outcome × connection) :=
  match c.initHandshakeV10 with
  | (Outcome.ok, c) =>
    match c.writePacket with
    | none => none
    | some (Outcome.ok, c) =>
      match c.readPacket with
      | none => none
      | some (Outcome.ok, c) =>
        match c.parseHandshakeResponse41 with
        | (Outcome.ok, c) => c.writeOkPacket
        | (r, c) => some (r, c)
      | some (r, c) => some (r, c)
    | some (r, c) => some (r, c)
  | (r, c) => some (r, c)

/-- The response `rootResponse` followed by the NUL-terminated schema name
`test`. -/
def dbResponse : List Nat := rootResponse ++ [116, 101, 115, 116, 0x00]

/-! ## Packet payloads, as the specification words them -/

/-- The initial-handshake payload: protocol version, server version `0.1.0`
with its NUL, the low 32 bits of the connection id in four little-endian
bytes, cipher bytes 0..8, a zero filler, the low capability bits `0x8b 0x86`,
charset `0x21` and 15 zero bytes, cipher bytes 8..20, and a zero byte. -/
def handshakePayload (id : Int) (cipher : List Nat) : List Nat :=
  [0x0a] ++ [48, 46, 49, 46, 48, 0x00]
    ++ [(id % 4294967296).toNat % 256,
        (id % 4294967296).toNat / 256 % 256,
        (id % 4294967296).toNat / 65536 % 256,
        (id % 4294967296).toNat / 16777216 % 256]
    ++ cipher.take 8 ++ [0x00] ++ [0x8b, 0x86]
    ++ (0x21 :: List.replicate 15 0) ++ cipher.drop 8 ++ [0x00]

/-- The OK payload: the marker `0x00` and six zero bytes. -/
def okPayload : List Nat := [0x00, 0, 0, 0, 0, 0, 0]

/-- The ERR payload of a SQL error: `0xff`, the code in two little-endian
bytes, `#`, the first five bytes of the state, the message. -/
def errPayload (e : SQLError) : List Nat :=
  [0xff, e.Code % 256, e.Code / 256 % 256, 35] ++ e.State.take 5 ++ e.Message

/-- A handshake response: capability bytes, max-packet-size bytes, charset,
23 reserved bytes, the username and its NUL, the length byte of the
authentication response and the response itself, and the remaining bytes
(the schema part). -/
def handshakeResponse (b0 b1 b2 b3 m0 m1 m2 m3 ch : Nat)
    (reserved user auth db : List Nat) : List Nat :=
  b0 :: b1 :: b2 :: b3 :: m0 :: m1 :: m2 :: m3 :: ch ::
    (reserved ++ (user ++ 0 :: (auth.length % 256 :: (auth ++ db))))

/-- A client stream for the handshake: one frame with sequence byte 1 that
carries the response of user `root` with an empty authentication response
and no schema. -/
def rootStream : List Nat :=
  frameHeader 38 1
    ++ handshakeResponse 0x00 0x02 0x00 0x00 0x00 0x00 0x00 0x01 0x21 (List.replicate 23 0)
        [114, 111, 111, 116] [] []
    ++ []

/-! ## connection.go: the command phase -/

def connection.handleCommandPhaseLoop : Nat → connection → Option (Outcome × connection)
  | 0, _ => none
  | fuel + 1, c =>
    match c.nextCommand with
    | none => none
    | some ((some cmd, Outcome.ok), c) =>
      if cmd.cmd = comQuit then some (Outcome.ok, c)
      else
        match cmd.execute with
        | (Outcome.error err, _) =>
          match c.writeErrPacket err with
          | none => none
          | some (_, c) => connection.handleCommandPhaseLoop fuel c
        | (Outcome.ok, _) =>
          match c.writeOkPacket with
          | none => none
          | some (_, c) => connection.handleCommandPhaseLoop fuel c
        | (Outcome.abort, _) => some (Outcome.abort, c)
    | some ((_, Outcome.error err), c) => some (Outcome.error err, c)
    | some (_, c) => some (Outcome.abort, c)

def connection.handleCommandPhase (c : connection) : Option (Outcome × connection) :=
  c.handleCommandPhaseLoop (c.input.length / defaultHeaderSize + 1)

/-- The byte stream of single-frame command packets with the given payloads,
each frame carrying sequence byte 0. -/
def commandStream (ps : List (List Nat)) : List Nat :=
  (ps.map (fun p => frameHeader p.length 0 ++ p)).flatten

/-! ## server.go: the registry of live connections -/

/-- The part of `server` that accepting, finishing and shutting down touch:
the slice `conns`, a cleared (nil) entry being `none`, and the handles on
which `Close` has been called so far.  A `net.Conn` is named by a number. -/
structure server where
  conns : List (Option Nat)
  closed : List Nat
deriving DecidableEq, Repr

/-- The accept loop on a new connection: `this.conns = append(this.conns, conn)`;
the handler is started with the index `len(this.conns)-1`. -/
def server.accept (s : server) (conn : Nat) : server × Nat :=
  ({ s with conns := s.conns ++ [some conn] }, (s.conns ++ [some conn]).length - 1)

/-- The deferred function of `handleConnection(conn, id)`, which runs on every
exit path whatever the outcome of the two phases: `conn.Close()` and
`this.conns[id] = nil`. -/
def server.handleConnection (s : server) (conn id : Nat) (_ : Outcome) : Outcome × server :=
  let s := { s with closed := s.closed ++ [conn] }
  if id < s.conns.length then (Outcome.ok, { s with conns := s.conns.set id none })
  else (Outcome.abort, s)

/-- The loop `for _, conn := range this.conns { conn.Close() }`; `Close` called
on a nil interface value is a run-time panic. -/
def server.closeAll : List (Option Nat) → List Nat → Outcome × List Nat
  | [], closed => (Outcome.ok, closed)
  | none :: _, closed => (Outcome.abort, closed)
  | some conn :: rest, closed => server.closeAll rest (closed ++ [conn])

/-- The deferred function of the accept goroutine, run on shutdown. -/
def server.shutdown (s : server) : Outcome × server :=
  match server.closeAll s.conns s.closed with
  | (r, closed) => (r, { s with closed := closed })

/-- What happens to the registry before shutdown: a connection is accepted,
or an accepted connection finishes with some outcome. -/
inductive Event where
  | accept (conn : Nat)
  | finish (conn id : Nat) (r : Outcome)
deriving DecidableEq, Repr

def server.run : List Event → server → server
  | [], s => s
  | Event.accept conn :: es, s => server.run es (s.accept conn).1
  | Event.finish conn id r :: es, s => server.run es (s.handleConnection conn id r).2

/-! ## The handshake, seen from the stream -/

/-- The session once the initial-handshake packet has gone out in one frame:
the state in which `handlePlainHandshake` calls `readPacket`. -/
def connection.awaitingResponse (c : connection) : connection :=
  { c with
    buf := [],
    output := c.output ++ (frameHeader 51 c.sequence ++ handshakePayload c.id c.cipher),
    room := c.room - 55,
    sequence := (c.sequence + 1) % 256 }

/-- The outcome of `handlePlainHandshake` on a fresh sample session fed the
given client bytes, together with everything the server has written. -/
def handshakeRun (input : List Nat) : Option (Outcome × List Nat) :=
  ((sampleConn input [] 0 100).handlePlainHandshake).map (fun x => (x.1, x.2.output))

/-- The response `rootResponse` with the authentication response replaced by
a length byte 5 followed by only two bytes. -/
def shortAuthResponse : List Nat :=
  [0x00, 0x02, 0x00, 0x00] ++ [0x00, 0x00, 0x00, 0x01] ++ [0x21] ++ List.replicate 23 0
    ++ [114, 111, 111, 116, 0x00] ++ [5, 1, 2]

/-- The frame in which a sample session sends its initial-handshake packet. -/
def sampleHandshakeFrame : List Nat :=
  frameHeader 51 0 ++ handshakePayload 1
    [1, 2, 3, 4, 5, 6, 7, 8, 9, 10, 11, 12, 13, 14, 15, 16, 17, 18, 19, 20]

/-! ## The constant families, in declaration order -/

/-- The command codes in the order of their declaration, `comEnd` last. -/
def serverCommands : List Nat :=
  [comSleep, comQuit, comInitDB,
    comComQuery, comFieldList, comCreateDB,
    comDropDB, comRefresh, comShutdown,
    comStatistics, comProcessInfo, comConnect,
    comProcessKill, comDebug, comPing,
    comTime, comDelayedInsert, comChangeUser,
    comBinlogDump, comTableDump, comConnectOut,
    comRegisterSlave, comStmtPrepare, comStmtExecute,
    comStmtSendLongData, comStmtClose, comStmtReset,
    comSetOption, comStmtFetch, comDaemon,
    comBinlogDumpGTID, comResetConnection, comEnd]

/-- The `fieldFlag` constants in the order of their declaration. -/
def fieldFlags : List Nat :=
  [flagNotNull, flagPriKey, flagUniqueKey,
    flagMultipleKey, flagBlob, flagUnsigned,
    flagZeroFill, flagBinary, flagEnum,
    flagAutoIncrement, flagTimestamp, flagSet,
    flagNoDefaultValue, flagOnUpdateNow, flagPartKey,
    flagNum, flagIntern1, flagIntern2,
    flagGetFixedFields, flagFieldInPartFunc]

/-- The `refreshFlag` constants in the order of their declaration. -/
def refreshFlags : List Nat :=
  [refreshGrant, refreshLog, refreshTables,
    refreshHosts, refreshStatus, refreshThreads,
    refreshSlave, refreshMaster, refreshErrorLog,
    refreshEngineLog, refreshBinaryLog, refreshRelayLog,
    refreshGeneralLog, refreshSlowLog, refreshReadLock,
    refreshFast, refreshQueryCache, refreshQueryCacheFree,
    refreshDesKeyFile, refreshUserResources, refreshForExport]

/-- The `clientFlag` constants in the order of their declaration; the last two are declared with explicit shifts 30 and 31. -/
def clientFlags : List Nat :=
  [clientLongPassword, clientFoundRows, clientLongFlag,
    clientConnectWithDB, clientNoSchema, clientCompress,
    clientODBC, clientLocalFiles, clientIgnoreSpace,
    clientProtocol41, clientInteractive, clientSSL,
    clientIgnoreSIGPIPE, clientTransactions, clientReserved,
    clientSecureConnection, clientMultiStatements, clientMultiResults,
    clientPSMultiResults, clientPluginAuth, clientConnectAttrs,
    clientPluginAuthLenencClientData, clientCanHandleExpiredPasswords, clientSSLVerifyServerCert,
    clientRememberOptions]

/-- The `serverStatusFlag` constants in the order of their declaration. -/
def serverStatusFlags : List Nat :=
  [serverStatusInTrans, serverStatusAutocommit, serverStatusUnused1,
    serverMoreResultsExists, serverQueryNoGoodIndexUsed, serverQueryNoIndexUsed,
    serverStatusCursorExists, serverStatusLastRowSent, serverStatusDBDropped,
    serverStatusNoBackslashEscapes, serverStatusMetadataChanged, serverQueryWasSlow,
    serverPSOutParams, serverStatusInTransReadOnly]

/-! ## Arithmetic of the constants -/

theorem defaultMaxPacketSize_eq : defaultMaxPacketSize = 16777215 := by decide

theorem chunkAt_zero (p : List Nat) : chunkAt p 0 = p.take defaultMaxPacketSize := by
  unfold chunkAt
  rw [Nat.zero_mul, List.drop_zero]

theorem chunks_of_lt (p : List Nat) (h : p.length < defaultMaxPacketSize) :
    chunks p = [p] := by
  have h0 : p.length / defaultMaxPacketSize = 0 := Nat.div_eq_of_lt h
  have h1 : List.range 1 = [0] := rfl
  unfold chunks
  rw [h0, Nat.zero_add, h1, List.map_cons, List.map_nil, chunkAt_zero,
    List.take_of_length_le (Nat.le_of_lt h)]

theorem chunkAt_succ (p : List Nat) (i : Nat) :
    chunkAt p (i + 1) = chunkAt (p.drop defaultMaxPacketSize) i := by
  unfold chunkAt
  rw [List.drop_drop, Nat.add_mul, Nat.one_mul, Nat.add_comm]

theorem chunks_of_ge (p : List Nat) (h : defaultMaxPacketSize ≤ p.length) :
    chunks p = p.take defaultMaxPacketSize :: chunks (p.drop defaultMaxPacketSize) := by
  have hk : p.length / defaultMaxPacketSize
      = (p.length - defaultMaxPacketSize) / defaultMaxPacketSize + 1 := by
    rw [defaultMaxPacketSize_eq] at *
    omega
  unfold chunks
  rw [List.length_drop]
  rw [hk]
  rw [List.range_succ_eq_map]
  rw [List.map_cons, List.map_map, chunkAt_zero]
  refine congrArg _ (List.map_congr_left ?_)
  intro i _
  exact chunkAt_succ p i

/-! ## writePacket -/

theorem wireSize_of_lt (p : List Nat) (h : p.length < defaultMaxPacketSize) :
    wireSize p = p.length + 4 := by
  unfold wireSize
  rw [Nat.div_eq_of_lt h]

theorem wireSize_of_ge (p : List Nat) (h : defaultMaxPacketSize ≤ p.length) :
    wireSize p = wireSize (p.drop defaultMaxPacketSize) + defaultMaxPacketSize + 4 := by
  unfold wireSize
  rw [List.length_drop]
  rw [defaultMaxPacketSize_eq] at *
  omega

theorem frameHeader_shift (n s : Nat) :
    [n % 256, (n >>> 8) % 256, (n >>> 16) % 256, s] = frameHeader n s := by
  simp [frameHeader, Nat.shiftRight_eq_div_pow]

theorem frameStream_mod : ∀ (fs : List (List Nat)) (s : Nat),
    frameStream (s % 256) fs = frameStream s fs := by
  intro fs
  induction fs with
  | nil => intro s; rfl
  | cons f fs ih =>
    intro s
    have h : (s % 256 + 1) % 256 = (s + 1) % 256 := by omega
    simp only [frameStream, Nat.mod_mod]
    rw [← ih (s % 256 + 1), ← ih (s + 1), h]

theorem seq_step (s q : Nat) :
    ((s + 1) % 256 + q + 1) % 256 = (s + (q + 1) + 1) % 256 := by omega

theorem frameHeader_length (n s : Nat) : (frameHeader n s).length = 4 := rfl

theorem writePacketLoop_ok : ∀ (fuel : Nat) (c : connection),
    c.sequence < 256 → c.buf.length / defaultMaxPacketSize < fuel →
    wireSize c.buf ≤ c.room →
    c.writePacketLoop fuel = some (Outcome.ok, c.afterWrite) := by
  intro fuel
  induction fuel with
  | zero => intro c _ hf _; exact absurd hf (Nat.not_lt_zero _)
  | succ fuel ih =>
    intro c hs hf hr
    by_cases hlt : c.buf.length < defaultMaxPacketSize
    · have hw := wireSize_of_lt c.buf hlt
      have ht : c.buf.take defaultMaxPacketSize = c.buf :=
        List.take_of_length_le (Nat.le_of_lt hlt)
      have hd : c.buf.drop defaultMaxPacketSize = [] :=
        List.drop_of_length_le (Nat.le_of_lt hlt)
      have h4 : 4 ≤ c.room := by omega
      have hb : c.buf.length ≤ c.room - 4 := by omega
      simp only [connection.writePacketLoop, Buffer.Next, connection.Write, ht, hd,
        frameHeader_shift, List.length_cons, List.length_nil]
      simp [h4, hb, hlt, connection.afterWrite, chunks_of_lt _ hlt, frameStream,
        Nat.mod_eq_of_lt hs, Nat.div_eq_of_lt hlt, hw, frameHeader_length]
      omega
    · have hge : defaultMaxPacketSize ≤ c.buf.length := Nat.le_of_not_lt hlt
      have hw := wireSize_of_ge c.buf hge
      have htl : (c.buf.take defaultMaxPacketSize).length = defaultMaxPacketSize := by
        rw [List.length_take]; exact Nat.min_eq_left hge
      have h4 : 4 ≤ c.room := by omega
      have hb : defaultMaxPacketSize ≤ c.room - 4 := by omega
      have hk : c.buf.length / defaultMaxPacketSize
          = (c.buf.length - defaultMaxPacketSize) / defaultMaxPacketSize + 1 := by
        rw [defaultMaxPacketSize_eq] at *
        omega
      simp only [connection.writePacketLoop, Buffer.Next, connection.Write, htl,
        frameHeader_shift, List.length_cons, List.length_nil]
      simp only [frameHeader_length, h4, hb, if_true, Nat.lt_irrefl, if_false, ne_eq,
        not_true_eq_false]
      rw [hk] at hf
      rw [ih]
      · simp only [connection.afterWrite, chunks_of_ge _ hge, frameStream,
          Nat.mod_eq_of_lt hs, hw, hk, htl, frameStream_mod, List.append_assoc,
          List.length_drop]
        refine congrArg some (congrArg (Prod.mk Outcome.ok) ?_)
        have e1 : c.room - 4 - defaultMaxPacketSize
              - wireSize (List.drop defaultMaxPacketSize c.buf)
            = c.room - (wireSize (List.drop defaultMaxPacketSize c.buf)
              + defaultMaxPacketSize + 4) := by omega
        rw [e1, seq_step]
      · exact Nat.mod_lt _ (by decide)
      · simp only [List.length_drop]
        exact Nat.lt_of_succ_lt_succ hf
      · simp only [htl]
        clear hk hf
        omega

theorem writePacketLoop_fail : ∀ (fuel : Nat) (c : connection),
    c.buf.length / defaultMaxPacketSize < fuel → c.room < wireSize c.buf →
    ∃ e c1, c.writePacketLoop fuel = some (Outcome.error e, c1) := by
  intro fuel
  induction fuel with
  | zero => intro c hf _; exact absurd hf (Nat.not_lt_zero _)
  | succ fuel ih =>
    intro c hf hr
    simp only [connection.writePacketLoop, Buffer.Next, connection.Write,
      frameHeader_shift, List.length_cons, List.length_nil, frameHeader_length]
    by_cases h4 : 4 ≤ c.room
    · by_cases hb : (c.buf.take defaultMaxPacketSize).length ≤ c.room - 4
      · by_cases hlt : c.buf.length < defaultMaxPacketSize
        · have hw := wireSize_of_lt c.buf hlt
          rw [List.take_of_length_le (Nat.le_of_lt hlt)] at hb
          omega
        · have hge : defaultMaxPacketSize ≤ c.buf.length := Nat.le_of_not_lt hlt
          have hw := wireSize_of_ge c.buf hge
          have htl : (c.buf.take defaultMaxPacketSize).length = defaultMaxPacketSize := by
            rw [List.length_take]; exact Nat.min_eq_left hge
          have hk : c.buf.length / defaultMaxPacketSize
              = (c.buf.length - defaultMaxPacketSize) / defaultMaxPacketSize + 1 := by
            rw [defaultMaxPacketSize_eq] at *
            omega
          rw [hk] at hf
          rw [htl] at hb
          simp only [htl, h4, hb, if_true, Nat.lt_irrefl, if_false, ne_eq,
            not_true_eq_false]
          apply ih
          · simp only [List.length_drop]
            exact Nat.lt_of_succ_lt_succ hf
          · simp only []
            clear hk hf
            omega
      · simp only [h4, hb, if_true, if_false]
        exact ⟨_, _, rfl⟩
    · simp only [h4, if_false]
      exact ⟨_, _, rfl⟩

/-! ## readPacket -/

theorem le24_decode (n : Nat) (h : n < 16777216) :
    (n % 256 ||| ((n / 256 % 256) <<< 8) ||| ((n / 65536 % 256) <<< 16)) = n := by
  have h1 : n % 256 ||| ((n / 256 % 256) <<< 8) = 2 ^ 8 * (n / 256 % 256) + n % 256 := by
    rw [Nat.shiftLeft_eq, Nat.mul_comm, Nat.lor_comm]
    exact (Nat.mul_add_lt_is_or (Nat.mod_lt _ (by decide)) _).symm
  have h2 : 2 ^ 8 * (n / 256 % 256) + n % 256 < 2 ^ 16 := by omega
  rw [h1, Nat.shiftLeft_eq, Nat.mul_comm (n / 65536 % 256), Nat.lor_comm,
    ← Nat.mul_add_lt_is_or h2]
  omega

theorem Read_header (c : connection) (h r : List Nat) (hl : h.length = 4)
    (hin : c.input = h ++ r) :
    c.Read defaultHeaderSize = ((h, none), { c with input := r }) := by
  have hne : c.input ≠ [] := by
    intro h0
    have := congrArg List.length hin
    rw [h0, List.length_append, hl] at this
    simp only [List.length_nil] at this
    omega
  unfold connection.Read defaultHeaderSize
  rw [if_neg (by decide), if_neg hne, hin, List.take_left' hl, List.drop_left' hl]

theorem CopyN_ok (c : connection) (d r : List Nat) (hin : c.input = d ++ r) :
    c.CopyN d.length = ((d.length, none), { c with buf := c.buf ++ d, input := r }) := by
  unfold connection.CopyN
  simp only [hin, List.take_left, List.drop_left, if_true]

theorem readPacketLoop_step (fuel : Nat) (c : connection) (f r : List Nat)
    (hf : f.length ≤ defaultMaxPacketSize)
    (hin : c.input = frameHeader f.length c.sequence ++ f ++ r) :
    c.readPacketLoop (fuel + 1) =
      if f.length < defaultMaxPacketSize then
        some (Outcome.ok,
          { c with buf := c.buf ++ f, input := r, sequence := (c.sequence + 1) % 256 })
      else
        connection.readPacketLoop fuel
          { c with buf := c.buf ++ f, input := r, sequence := (c.sequence + 1) % 256 } := by
  have hin2 : c.input = frameHeader f.length c.sequence ++ (f ++ r) := by
    rw [hin, List.append_assoc]
  have hdec : (f.length % 256 ||| ((f.length / 256 % 256) <<< 8)
      ||| ((f.length / 65536 % 256) <<< 16)) = f.length := by
    apply le24_decode
    rw [defaultMaxPacketSize_eq] at hf
    omega
  rw [connection.readPacketLoop, Read_header c _ _ (frameHeader_length _ _) hin2]
  simp only [frameHeader, List.length_cons, List.length_nil, defaultHeaderSize,
    List.getD_cons_zero, List.getD_cons_succ, ne_eq, not_true_eq_false, if_false, hdec]
  rw [CopyN_ok _ f r rfl]
  simp only [ne_eq, not_true_eq_false, if_false]

theorem readPacketLoop_frames : ∀ (fulls : List (List Nat)) (s fuel : Nat) (c : connection)
    (last rest : List Nat),
    (∀ f ∈ fulls, f.length = defaultMaxPacketSize) → last.length < defaultMaxPacketSize →
    fulls.length < fuel → c.sequence = s % 256 →
    c.input = frameStream s (fulls ++ [last]) ++ rest →
    c.readPacketLoop fuel = some (Outcome.ok,
      { c with
        buf := c.buf ++ (fulls ++ [last]).flatten,
        input := rest,
        sequence := (s + fulls.length + 1) % 256 }) := by
  intro fulls
  induction fulls with
  | nil =>
    intro s fuel c last rest _ hlast hfuel hseq hin
    obtain ⟨fuel, rfl⟩ : ∃ k, fuel = k + 1 :=
      ⟨fuel - 1, (Nat.sub_add_cancel (Nat.lt_of_le_of_lt (Nat.zero_le _) hfuel)).symm⟩
    have hin2 : c.input = frameHeader last.length c.sequence ++ last ++ rest := by
      rw [hin, hseq]
      simp [frameStream]
    rw [readPacketLoop_step fuel c last rest (Nat.le_of_lt hlast) hin2, if_pos hlast, hseq]
    have e : (s % 256 + 1) % 256 = (s + 0 + 1) % 256 := by omega
    simp [e]
  | cons f fulls ih =>
    intro s fuel c last rest hfull hlast hfuel hseq hin
    obtain ⟨fuel, rfl⟩ : ∃ k, fuel = k + 1 :=
      ⟨fuel - 1, (Nat.sub_add_cancel (Nat.lt_of_le_of_lt (Nat.zero_le _) hfuel)).symm⟩
    have hf : f.length = defaultMaxPacketSize := hfull f (List.mem_cons_self _ _)
    have hin2 : c.input = frameHeader f.length c.sequence ++ f
        ++ (frameStream (s + 1) (fulls ++ [last]) ++ rest) := by
      rw [hin, hseq]
      simp [frameStream]
    rw [readPacketLoop_step fuel c f _ (Nat.le_of_eq hf) hin2,
      if_neg (by rw [hf]; exact Nat.lt_irrefl _)]
    have hseq2 : (c.sequence + 1) % 256 = (s + 1) % 256 := by rw [hseq]; omega
    rw [ih (s + 1) fuel
      { c with
        buf := c.buf ++ f,
        input := frameStream (s + 1) (fulls ++ [last]) ++ rest,
        sequence := (c.sequence + 1) % 256 }
      last rest (fun g hg => hfull g (List.mem_cons_of_mem _ hg)) hlast
      (Nat.lt_of_succ_lt_succ hfuel) hseq2 rfl]
    have e : (s + 1 + fulls.length + 1) % 256 = (s + (fulls.length + 1) + 1) % 256 := by
      omega
    simp [e]

theorem frameStream_length_ge (s : Nat) (fs : List (List Nat)) :
    4 * fs.length ≤ (frameStream s fs).length := by
  induction fs generalizing s with
  | nil => simp [frameStream]
  | cons f fs ih =>
    have := ih (s + 1)
    simp only [frameStream, List.length_append, frameHeader_length, List.length_cons]
    omega

theorem readPacketLoop_fulls : ∀ (fulls : List (List Nat)) (s fuel : Nat) (c : connection)
    (tail : List Nat),
    (∀ f ∈ fulls, f.length = defaultMaxPacketSize) → c.sequence = s % 256 →
    c.input = frameStream s fulls ++ tail →
    c.readPacketLoop (fuel + fulls.length) =
      connection.readPacketLoop fuel
        { c with
          buf := c.buf ++ fulls.flatten,
          input := tail,
          sequence := (s + fulls.length) % 256 } := by
  intro fulls
  induction fulls with
  | nil =>
    intro s fuel c tail _ hseq hin
    have e : c = { c with buf := c.buf ++ [], input := tail, sequence := s % 256 } := by
      rw [← hseq, List.append_nil]
      simp only [frameStream, List.nil_append] at hin
      rw [← hin]
    simp only [List.length_nil, Nat.add_zero, List.flatten_nil]
    exact congrArg _ e
  | cons f fulls ih =>
    intro s fuel c tail hfull hseq hin
    have hf : f.length = defaultMaxPacketSize := hfull f (List.mem_cons_self _ _)
    have hin2 : c.input = frameHeader f.length c.sequence ++ f
        ++ (frameStream (s + 1) fulls ++ tail) := by
      rw [hin, hseq]
      simp [frameStream]
    have hseq2 : (c.sequence + 1) % 256 = (s + 1) % 256 := by rw [hseq]; omega
    have e : (s + 1 + fulls.length) % 256 = (s + (fulls.length + 1)) % 256 := by
      omega
    rw [List.length_cons, ← Nat.add_assoc,
      readPacketLoop_step _ c f _ (Nat.le_of_eq hf) hin2,
      if_neg (by rw [hf]; exact Nat.lt_irrefl _),
      ih (s + 1) fuel
        { c with
          buf := c.buf ++ f,
          input := frameStream (s + 1) fulls ++ tail,
          sequence := (c.sequence + 1) % 256 }
        tail (fun g hg => hfull g (List.mem_cons_of_mem _ hg)) hseq2 rfl]
    simp [e]

theorem readPacketLoop_mismatch (fuel : Nat) (c : connection) (n q : Nat) (rest : List Nat)
    (hin : c.input = frameHeader n q ++ rest) (hq : q ≠ c.sequence) :
    c.readPacketLoop (fuel + 1) = some (Outcome.error
      (Error.Errorf "Connecton/readPacket: sequence number mismatch" []),
      { c with input := rest }) := by
  rw [connection.readPacketLoop, Read_header c _ _ (frameHeader_length _ _) hin]
  simp [frameHeader, defaultHeaderSize, hq]

theorem readPacketLoop_short_header (fuel : Nat) (c : connection) (h : c.input.length < 4) :
    ∃ e c1, c.readPacketLoop (fuel + 1) = some (Outcome.error e, c1) := by
  rw [connection.readPacketLoop]
  unfold connection.Read defaultHeaderSize
  rw [if_neg (by decide)]
  by_cases h0 : c.input = []
  · rw [if_pos h0]
    exact ⟨_, _, rfl⟩
  · rw [if_neg h0]
    have hl : (c.input.take 4).length ≠ 4 := by
      rw [List.length_take]
      omega
    simp only [ne_eq, hl, not_false_eq_true, if_true]
    exact ⟨_, _, rfl⟩

theorem readPacketLoop_short_body (fuel : Nat) (c : connection) (n : Nat) (body : List Nat)
    (hn : n < 16777216) (hb : body.length < n)
    (hin : c.input = frameHeader n c.sequence ++ body) :
    ∃ e c1, c.readPacketLoop (fuel + 1) = some (Outcome.error e, c1) := by
  have ht : (body.take n).length ≠ n := by
    rw [List.length_take]
    omega
  rw [connection.readPacketLoop, Read_header c _ _ (frameHeader_length _ _) hin]
  simp only [frameHeader, List.length_cons, List.length_nil, defaultHeaderSize,
    List.getD_cons_zero, List.getD_cons_succ, ne_eq, not_true_eq_false, if_false,
    le24_decode n hn, connection.CopyN, ht]
  exact ⟨_, _, rfl⟩

/-! ## The chunks of a payload -/

theorem chunks_split : ∀ (n : Nat) (p : List Nat), p.length = n →
    ∃ fulls last, chunks p = fulls ++ [last] ∧
      (∀ f ∈ fulls, f.length = defaultMaxPacketSize) ∧
      last.length < defaultMaxPacketSize ∧
      fulls.length = p.length / defaultMaxPacketSize ∧
      (fulls ++ [last]).flatten = p := by
  intro n
  induction n using Nat.strong_induction_on with
  | _ n ih =>
    intro p hp
    by_cases hlt : p.length < defaultMaxPacketSize
    · refine ⟨[], p, ?_, ?_, hlt, ?_, ?_⟩
      · rw [chunks_of_lt p hlt, List.nil_append]
      · intro f hf
        exact absurd hf (List.not_mem_nil f)
      · rw [Nat.div_eq_of_lt hlt, List.length_nil]
      · simp
    · have hge : defaultMaxPacketSize ≤ p.length := Nat.le_of_not_lt hlt
      have hpos : 0 < defaultMaxPacketSize := by decide
      have hlen : (p.drop defaultMaxPacketSize).length < n := by
        rw [List.length_drop, ← hp]
        exact Nat.sub_lt (Nat.lt_of_lt_of_le hpos hge) hpos
      obtain ⟨fulls, last, h1, h2, h3, h4, h5⟩ := ih _ hlen (p.drop defaultMaxPacketSize) rfl
      have htl : (p.take defaultMaxPacketSize).length = defaultMaxPacketSize := by
        rw [List.length_take]; exact Nat.min_eq_left hge
      refine ⟨p.take defaultMaxPacketSize :: fulls, last, ?_, ?_, h3, ?_, ?_⟩
      · rw [chunks_of_ge p hge, h1, List.cons_append]
      · intro f hf
        rcases List.mem_cons.mp hf with h | h
        · rw [h]; exact htl
        · exact h2 f h
      · rw [List.length_cons, h4, List.length_drop]
        rw [defaultMaxPacketSize_eq] at *
        omega
      · rw [List.cons_append, List.flatten_cons, h5, List.take_append_drop]

theorem frameStream_range : ∀ (n : Nat) (g : Nat → List Nat) (s : Nat),
    frameStream s ((List.range n).map g) =
      ((List.range n).map
        (fun i => frameHeader (g i).length ((s + i) % 256) ++ g i)).flatten := by
  intro n
  induction n with
  | zero => intro g s; rfl
  | succ n ih =>
    intro g s
    rw [List.range_succ_eq_map, List.map_cons, List.map_map, List.map_cons, List.map_map,
      frameStream, ih (g ∘ Nat.succ) (s + 1), List.flatten_cons, Nat.add_zero]
    refine congrArg _ (congrArg _ (List.map_congr_left ?_))
    intro i _
    have e : s + 1 + i = s + (i + 1) := by omega
    simp only [Function.comp, e, Nat.succ_eq_add_one]

/-! ## writePacket and readPacket as a whole -/

theorem writePacket_ok (c : connection) (hs : c.sequence < 256)
    (hr : wireSize c.buf ≤ c.room) :
    c.writePacket = some (Outcome.ok, c.afterWrite) :=
  writePacketLoop_ok _ c hs (Nat.lt_succ_self _) hr

theorem writePacket_room (c c1 : connection)
    (h : c.writePacket = some (Outcome.ok, c1)) : wireSize c.buf ≤ c.room := by
  by_contra hn
  obtain ⟨e, c2, he⟩ := writePacketLoop_fail _ c (Nat.lt_succ_self _) (Nat.lt_of_not_le hn)
  unfold connection.writePacket at h
  rw [he] at h
  cases h

theorem writePacket_result (c c1 : connection) (hs : c.sequence < 256)
    (h : c.writePacket = some (Outcome.ok, c1)) : c1 = c.afterWrite := by
  have h2 := writePacket_ok c hs (writePacket_room c c1 h)
  rw [h] at h2
  cases h2
  rfl

theorem readPacket_frames (c : connection) (fulls : List (List Nat)) (last rest : List Nat)
    (hs : c.sequence < 256)
    (hfull : ∀ f ∈ fulls, f.length = defaultMaxPacketSize)
    (hlast : last.length < defaultMaxPacketSize)
    (hin : c.input = frameStream c.sequence (fulls ++ [last]) ++ rest) :
    c.readPacket = some (Outcome.ok,
      { c with
        buf := (fulls ++ [last]).flatten,
        input := rest,
        sequence := (c.sequence + fulls.length + 1) % 256 }) := by
  have hlen : 4 * (fulls.length + 1) ≤ c.input.length := by
    have := frameStream_length_ge c.sequence (fulls ++ [last])
    rw [hin, List.length_append]
    simp only [List.length_append, List.length_cons, List.length_nil] at this
    omega
  have hfuel : fulls.length < c.input.length / defaultHeaderSize + 1 := by
    unfold defaultHeaderSize
    omega
  unfold connection.readPacket
  rw [readPacketLoop_frames fulls c.sequence _
    { c with buf := Buffer.Reset c.buf } last rest hfull hlast hfuel
    (Nat.mod_eq_of_lt hs).symm hin]
  simp [Buffer.Reset]

theorem readPacket_after_fulls (c : connection) (fulls : List (List Nat)) (tail : List Nat)
    (hs : c.sequence < 256)
    (hfull : ∀ f ∈ fulls, f.length = defaultMaxPacketSize)
    (hin : c.input = frameStream c.sequence fulls ++ tail) :
    ∃ fuel, c.readPacket = connection.readPacketLoop (fuel + 1)
      { c with
        buf := fulls.flatten,
        input := tail,
        sequence := (c.sequence + fulls.length) % 256 } := by
  have hlen : 4 * fulls.length ≤ c.input.length := by
    have := frameStream_length_ge c.sequence fulls
    rw [hin, List.length_append]
    omega
  refine ⟨c.input.length / 4 - fulls.length, ?_⟩
  have hfuel : c.input.length / defaultHeaderSize + 1
      = (c.input.length / 4 - fulls.length + 1) + fulls.length := by
    unfold defaultHeaderSize
    omega
  unfold connection.readPacket
  simp only []
  rw [hfuel, readPacketLoop_fulls fulls c.sequence _
    { c with buf := Buffer.Reset c.buf } tail hfull (Nat.mod_eq_of_lt hs).symm hin]
  simp [Buffer.Reset]

theorem chunkAt_length_full (p : List Nat) (i : Nat)
    (hi : i < p.length / defaultMaxPacketSize) :
    (chunkAt p i).length = defaultMaxPacketSize := by
  have h1 : (i + 1) * defaultMaxPacketSize ≤ p.length :=
    Nat.le_trans (Nat.mul_le_mul_right _ hi) (Nat.div_mul_le_self _ _)
  unfold chunkAt
  rw [List.length_take, List.length_drop]
  rw [Nat.add_mul, Nat.one_mul] at h1
  omega

theorem chunkAt_length_last (p : List Nat) :
    (chunkAt p (p.length / defaultMaxPacketSize)).length
      = p.length % defaultMaxPacketSize := by
  have h1 : p.length / defaultMaxPacketSize * defaultMaxPacketSize
      + p.length % defaultMaxPacketSize = p.length := Nat.div_add_mod' _ _
  have h2 : p.length % defaultMaxPacketSize < defaultMaxPacketSize :=
    Nat.mod_lt _ (by decide)
  unfold chunkAt
  rw [List.length_take, List.length_drop]
  omega

/-! ## Claims about the packet transport -/

/-- C1: for a payload `w.buf` and a sequence byte `w.sequence`, the bytes a
successful `writePacket` emits, fed to `readPacket` on a session expecting the
same sequence byte, are read successfully and leave exactly the payload in the
buffer, whatever the buffer held before, with the stream fully consumed. -/
theorem writePacket_readPacket_roundtrip (w w1 r : connection) (hs : w.sequence < 256)
    (hw : w.writePacket = some (Outcome.ok, w1))
    (hin : r.input = w1.output.drop w.output.length)
    (hseq : r.sequence = w.sequence) :
    ∃ r1, r.readPacket = some (Outcome.ok, r1) ∧ r1.buf = w.buf ∧ r1.input = [] := by
  have h1 := writePacket_result w w1 hs hw
  obtain ⟨fulls, last, hc, hfull, hlast, _, hflat⟩ := chunks_split _ w.buf rfl
  have hin2 : r.input = frameStream r.sequence (fulls ++ [last]) ++ [] := by
    rw [hin, h1, hseq]
    simp [connection.afterWrite, hc]
  have hs2 : r.sequence < 256 := by rw [hseq]; exact hs
  exact ⟨_, readPacket_frames r fulls last [] hs2 hfull hlast hin2, hflat, rfl⟩

theorem writePacket_readPacket_roundtrip_witness :
    ∃ r1, (sampleConn [3, 0, 0, 5, 1, 2, 3] [9, 9] 5 0).readPacket = some (Outcome.ok, r1)
      ∧ r1.buf = [1, 2, 3] ∧ r1.input = [] :=
  writePacket_readPacket_roundtrip (sampleConn [] [1, 2, 3] 5 100)
    (sampleConn [] [1, 2, 3] 5 100).afterWrite (sampleConn [3, 0, 0, 5, 1, 2, 3] [9, 9] 5 0)
    (by decide) (by decide) (by decide) (by decide)

/-- C2: a successful `writePacket` on a buffer `p` of length `S` with sequence
byte `s` appends to the stream exactly the `k + 1` frames, `k = S / MAX`, and
nothing else: frame `i` is the header (length in three little-endian bytes,
sequence byte `(s + i) mod 256`) followed by bytes `p[i*MAX .. min((i+1)*MAX, S))`;
frames before the last carry `MAX` bytes, the last carries `S mod MAX` bytes;
the sequence afterwards is `(s + k + 1) mod 256` and the buffer is drained. -/
theorem writePacket_frames (c c1 : connection) (hs : c.sequence < 256)
    (h : c.writePacket = some (Outcome.ok, c1)) :
    c1.output = c.output ++
        ((List.range (c.buf.length / defaultMaxPacketSize + 1)).map
          (fun i => frameHeader (chunkAt c.buf i).length ((c.sequence + i) % 256)
            ++ chunkAt c.buf i)).flatten
      ∧ (∀ i, i < c.buf.length / defaultMaxPacketSize →
          (chunkAt c.buf i).length = defaultMaxPacketSize)
      ∧ (chunkAt c.buf (c.buf.length / defaultMaxPacketSize)).length
          = c.buf.length % defaultMaxPacketSize
      ∧ (∀ i, (c.sequence + (i + 1)) % 256 = ((c.sequence + i) % 256 + 1) % 256)
      ∧ c1.sequence = (c.sequence + c.buf.length / defaultMaxPacketSize + 1) % 256
      ∧ c1.buf = [] ∧ c1.input = c.input := by
  have h1 := writePacket_result c c1 hs h
  subst h1
  refine ⟨?_, chunkAt_length_full c.buf, chunkAt_length_last c.buf, ?_, rfl, rfl, rfl⟩
  · simp only [connection.afterWrite, chunks]
    rw [frameStream_range]
  · intro i
    omega

theorem writePacket_frames_witness :
    (sampleConn [] [1, 2, 3] 255 100).afterWrite.output
        = [] ++ ((List.range (3 / defaultMaxPacketSize + 1)).map
          (fun i => frameHeader (chunkAt [1, 2, 3] i).length ((255 + i) % 256)
            ++ chunkAt [1, 2, 3] i)).flatten
      ∧ (sampleConn [] [1, 2, 3] 255 100).afterWrite.output = [3, 0, 0, 255, 1, 2, 3]
      ∧ (sampleConn [] [1, 2, 3] 255 100).afterWrite.sequence = 0 :=
  ⟨(writePacket_frames (sampleConn [] [1, 2, 3] 255 100)
      (sampleConn [] [1, 2, 3] 255 100).afterWrite (by decide) (by decide)).1,
    by decide, by decide⟩

/-- C3: when the stream begins with frames whose sequence bytes count up from
the expected one, all but the last declaring exactly `MAX` bytes and the last
fewer, each followed by its payload, `readPacket` succeeds, leaves the
concatenated payloads in the buffer whatever it held before, consumes exactly
those frames and leaves the sequence at `(s + k) mod 256` for `k` frames. -/
theorem readPacket_reassembles (c : connection) (fulls : List (List Nat))
    (last rest : List Nat) (hs : c.sequence < 256)
    (hfull : ∀ f ∈ fulls, f.length = defaultMaxPacketSize)
    (hlast : last.length < defaultMaxPacketSize)
    (hin : c.input = frameStream c.sequence (fulls ++ [last]) ++ rest) :
    c.readPacket = some (Outcome.ok,
      { c with
        buf := (fulls ++ [last]).flatten,
        input := rest,
        sequence := (c.sequence + (fulls ++ [last]).length) % 256 }) := by
  rw [readPacket_frames c fulls last rest hs hfull hlast hin]
  simp [Nat.add_assoc]

theorem readPacket_reassembles_witness :
    (sampleConn [2, 0, 0, 255, 7, 8, 42] [9, 9] 255 0).readPacket = some (Outcome.ok,
      { sampleConn [2, 0, 0, 255, 7, 8, 42] [9, 9] 255 0 with
        buf := ([] ++ [[7, 8]]).flatten,
        input := [42],
        sequence := (255 + ([] ++ [[7, 8]] : List (List Nat)).length) % 256 }) :=
  readPacket_reassembles (sampleConn [2, 0, 0, 255, 7, 8, 42] [9, 9] 255 0) [] [7, 8] [42]
    (by decide) (by decide) (by decide) (by decide)

/-- C4: when, after any number of correctly sequenced full frames, the next
frame header carries a sequence byte other than the expected one, `readPacket`
returns the sequence-mismatch error; and `nextCommand`, which expects the
first frame at sequence 0, returns that error and no command. -/
theorem readPacket_rejects_sequence_mismatch (c : connection) (s : Nat)
    (fulls : List (List Nat)) (n q : Nat) (rest : List Nat) (hs : s < 256)
    (hfull : ∀ f ∈ fulls, f.length = defaultMaxPacketSize)
    (hin : c.input = frameStream s fulls ++ (frameHeader n q ++ rest))
    (hq : q ≠ (s + fulls.length) % 256) :
    (c.sequence = s → ∃ c1, c.readPacket = some (Outcome.error
        (Error.Errorf "Connecton/readPacket: sequence number mismatch" []), c1))
      ∧ (s = 0 → ∃ c1, c.nextCommand = some ((none, Outcome.error
        (Error.Errorf "Connecton/readPacket: sequence number mismatch" [])), c1)) := by
  constructor
  · intro hseq
    subst hseq
    obtain ⟨fuel, hf⟩ := readPacket_after_fulls c fulls _ hs hfull hin
    rw [hf, readPacketLoop_mismatch fuel _ n q rest rfl hq]
    exact ⟨_, rfl⟩
  · intro h0
    subst h0
    have h256 : ({ c with sequence := 0 } : connection).sequence < 256 :=
      Nat.zero_lt_succ _
    obtain ⟨fuel, hf⟩ := readPacket_after_fulls { c with sequence := 0 } fulls _
      h256 hfull hin
    unfold connection.nextCommand
    simp only []
    rw [hf, readPacketLoop_mismatch fuel _ n q rest rfl hq]
    exact ⟨_, rfl⟩

theorem readPacket_rejects_sequence_mismatch_witness :
    (∃ c1, (sampleConn [1, 0, 0, 1, 3] [] 0 0).readPacket = some (Outcome.error
        (Error.Errorf "Connecton/readPacket: sequence number mismatch" []), c1))
      ∧ (∃ c1, (sampleConn [1, 0, 0, 1, 3] [] 0 0).nextCommand = some ((none, Outcome.error
        (Error.Errorf "Connecton/readPacket: sequence number mismatch" [])), c1)) :=
  ⟨(readPacket_rejects_sequence_mismatch (sampleConn [1, 0, 0, 1, 3] [] 0 0) 0 [] 1 1 [3]
      (by decide) (by decide) (by decide) (by decide)).1 (by decide),
    (readPacket_rejects_sequence_mismatch (sampleConn [1, 0, 0, 1, 3] [] 0 0) 0 [] 1 1 [3]
      (by decide) (by decide) (by decide) (by decide)).2 rfl⟩

/-- C5: when, after any number of correctly sequenced full frames, the stream
ends before four header bytes, or ends before the payload bytes that a
correctly sequenced header declares, `readPacket` returns an error. -/
theorem readPacket_rejects_truncation (c : connection) (fulls : List (List Nat))
    (tail : List Nat) (hs : c.sequence < 256)
    (hfull : ∀ f ∈ fulls, f.length = defaultMaxPacketSize)
    (hin : c.input = frameStream c.sequence fulls ++ tail)
    (htr : tail.length < 4 ∨ ∃ n body, n < 16777216 ∧ body.length < n ∧
      tail = frameHeader n ((c.sequence + fulls.length) % 256) ++ body) :
    ∃ e c1, c.readPacket = some (Outcome.error e, c1) := by
  obtain ⟨fuel, hf⟩ := readPacket_after_fulls c fulls tail hs hfull hin
  rw [hf]
  rcases htr with h | ⟨n, body, hn, hb, ht⟩
  · exact readPacketLoop_short_header fuel _ h
  · exact readPacketLoop_short_body fuel _ n body hn hb ht

theorem readPacket_rejects_truncation_witness :
    ∃ e c1, (sampleConn [3, 0, 0, 0, 1, 2] [] 0 0).readPacket = some (Outcome.error e, c1) :=
  readPacket_rejects_truncation (sampleConn [3, 0, 0, 0, 1, 2] [] 0 0) [] [3, 0, 0, 0, 1, 2]
    (by decide) (by decide) (by decide)
    (Or.inr ⟨3, [1, 2], by decide, by decide, by decide⟩)

/-! ## The initial handshake packet -/

theorem byteOfInt_low (x : Int) :
    byteOfInt x = (x % 4294967296).toNat % 256 := by
  unfold byteOfInt
  omega

theorem byteOfInt_shift8 (x : Int) :
    byteOfInt (x >>> (8 : Nat)) = (x % 4294967296).toNat / 256 % 256 := by
  unfold byteOfInt
  rw [Int.shiftRight_eq_div_pow]
  omega

theorem byteOfInt_shift16 (x : Int) :
    byteOfInt (x >>> (16 : Nat)) = (x % 4294967296).toNat / 65536 % 256 := by
  unfold byteOfInt
  rw [Int.shiftRight_eq_div_pow]
  omega

theorem byteOfInt_shift24 (x : Int) :
    byteOfInt (x >>> (24 : Nat)) = (x % 4294967296).toNat / 16777216 % 256 := by
  unfold byteOfInt
  rw [Int.shiftRight_eq_div_pow]
  omega

/-- C6: for every connection id and every 20-byte cipher, `initHandshakeV10`
succeeds and leaves in the buffer, whatever it held before, exactly 51 bytes:
`0x0a`; `'0' '.' '1' '.' '0' 0x00`; the low 32 bits of the id in four
little-endian bytes; cipher bytes 0..8; `0x00`; `0x8b 0x86` (the low 16 bits
of `serverCapabilityFlags`); `0x21` and 15 zero bytes; cipher bytes 8..20;
`0x00`.  No other field of the session changes. -/
theorem initHandshakeV10_layout (c : connection) (hc : c.cipher.length = 20) :
    c.initHandshakeV10 = (Outcome.ok,
      { c with
        buf := [0x0a] ++ [48, 46, 49, 46, 48, 0x00]
          ++ [(c.id % 4294967296).toNat % 256,
              (c.id % 4294967296).toNat / 256 % 256,
              (c.id % 4294967296).toNat / 65536 % 256,
              (c.id % 4294967296).toNat / 16777216 % 256]
          ++ c.cipher.take 8 ++ [0x00] ++ [0x8b, 0x86]
          ++ (0x21 :: List.replicate 15 0) ++ c.cipher.drop 8 ++ [0x00] })
      ∧ (c.initHandshakeV10).2.buf.length = 51
      ∧ [0x8b, 0x86] = [serverCapabilityFlags % 65536 % 256,
          serverCapabilityFlags % 65536 / 256 % 256] := by
  have h8 : (c.cipher.take 8).length = 8 := by
    rw [List.length_take, hc]; rfl
  have h12 : ((c.cipher.drop 8).take 12).length = 12 := by
    rw [List.length_take, List.length_drop, hc]; rfl
  have hd : (c.cipher.drop 8).take 12 = c.cipher.drop 8 :=
    List.take_of_length_le (by rw [List.length_drop, hc])
  have key : c.initHandshakeV10 = (Outcome.ok,
      { c with
        buf := [0x0a] ++ [48, 46, 49, 46, 48, 0x00]
          ++ [(c.id % 4294967296).toNat % 256,
              (c.id % 4294967296).toNat / 256 % 256,
              (c.id % 4294967296).toNat / 65536 % 256,
              (c.id % 4294967296).toNat / 16777216 % 256]
          ++ c.cipher.take 8 ++ [0x00] ++ [0x8b, 0x86]
          ++ (0x21 :: List.replicate 15 0) ++ c.cipher.drop 8 ++ [0x00] }) := by
    have hw : serverCapabilityFlags % 2 ^ 16 % 256 = 0x8b := by decide
    have hw2 : (serverCapabilityFlags % 2 ^ 16) >>> 8 % 256 = 0x86 := by decide
    simp only [connection.initHandshakeV10, Buffer.Reset, Buffer.WriteByte, Buffer.Write,
      Buffer.WriteUint16LE, h8, h12, hw, hw2, List.length_cons, List.length_nil,
      ne_eq, not_true_eq_false, if_false, byteOfInt_shift8,
      byteOfInt_shift16, byteOfInt_shift24, defaultProtocolVersion, collationUtf8General]
    simp only [hd, byteOfInt_low]
    simp [List.replicate]
  refine ⟨key, ?_, by decide⟩
  rw [key]
  simp [hc]

theorem initHandshakeV10_layout_witness :
    (sampleConn [] [9, 9] 0 0).initHandshakeV10.2.buf =
      [10, 48, 46, 49, 46, 48, 0, 1, 0, 0, 0, 1, 2, 3, 4, 5, 6, 7, 8, 0, 0x8b, 0x86,
        0x21, 0, 0, 0, 0, 0, 0, 0, 0, 0, 0, 0, 0, 0, 0, 0,
        9, 10, 11, 12, 13, 14, 15, 16, 17, 18, 19, 20, 0]
      ∧ (sampleConn [] [9, 9] 0 0).initHandshakeV10.2.buf.length = 51 :=
  ⟨by decide, (initHandshakeV10_layout (sampleConn [] [9, 9] 0 0) (by decide)).2.1⟩

/-- C7: `serverCapabilityFlags` is exactly the seven bits long-password (1),
found-rows (2), connect-with-DB (8), local-files (128), protocol-41 (512),
interactive (1024) and secure-connection (32768): it equals `0x868B`, fits in
16 bits (so truncation to `uint16` loses nothing and the upper 16 bits are
zero) and has the length-encoded-client-data bit clear. -/
theorem serverCapabilityFlags_value :
    serverCapabilityFlags = 0x868B
      ∧ serverCapabilityFlags = 1 + 2 + 8 + 128 + 512 + 1024 + 32768
      ∧ clientLongPassword = 1 ∧ clientFoundRows = 2 ∧ clientConnectWithDB = 8
      ∧ clientLocalFiles = 128 ∧ clientProtocol41 = 512 ∧ clientInteractive = 1024
      ∧ clientSecureConnection = 32768
      ∧ (List.range 32).filter (fun k => serverCapabilityFlags.testBit k)
          = [0, 1, 3, 7, 9, 10, 15]
      ∧ serverCapabilityFlags < 2 ^ 16
      ∧ serverCapabilityFlags % 2 ^ 16 = serverCapabilityFlags
      ∧ serverCapabilityFlags >>> 16 = 0
      ∧ serverCapabilityFlags &&& clientPluginAuthLenencClientData = 0 := by
  refine ⟨by decide, by decide, by decide, by decide, by decide, by decide, by decide,
    by decide, by decide, by decide, by decide, by decide, by decide, by decide⟩

/-! ## The handshake response -/

theorem IndexByte_absent : ∀ (u : List Nat) (d : Nat), d ∉ u → IndexByte u d = -1 := by
  intro u
  induction u with
  | nil => intro d _; rfl
  | cons x u ih =>
    intro d hd
    have hx : x ≠ d := fun h => hd (h ▸ List.mem_cons_self _ _)
    have hu : d ∉ u := fun h => hd (List.mem_cons_of_mem _ h)
    simp [IndexByte, hx, ih d hu]

theorem IndexByte_found : ∀ (u r : List Nat) (d : Nat), d ∉ u →
    IndexByte (u ++ d :: r) d = u.length := by
  intro u
  induction u with
  | nil => intro r d _; simp [IndexByte]
  | cons x u ih =>
    intro r d hd
    have hx : x ≠ d := fun h => hd (h ▸ List.mem_cons_self _ _)
    have hu : d ∉ u := fun h => hd (List.mem_cons_of_mem _ h)
    have hnn : ¬ ((u.length : Int) < 0) := by omega
    simp [IndexByte, hx, ih r d hu, hnn]

theorem ReadBytes_absent (u : List Nat) (d : Nat) (hd : d ∉ u) :
    Buffer.ReadBytes u d = ((u, some Error.EOF), []) := by
  simp [Buffer.ReadBytes, IndexByte_absent u d hd]

theorem ReadBytes_found (u r : List Nat) (d : Nat) (hd : d ∉ u) :
    Buffer.ReadBytes (u ++ d :: r) d = ((u ++ [d], none), r) := by
  have hnn : ¬ ((u.length : Int) < 0) := by omega
  have e : ((u.length : Int) + 1).toNat = (u ++ [d]).length := by
    rw [List.length_append]
    simp only [List.length_cons, List.length_nil]
    omega
  have e2 : u ++ d :: r = (u ++ [d]) ++ r := by simp
  simp only [Buffer.ReadBytes, IndexByte_found u r d hd, hnn, if_false, e]
  rw [e2, List.take_left, List.drop_left]

theorem le32_decode (b0 b1 b2 b3 : Nat) (h0 : b0 < 256) (h1 : b1 < 256) (h2 : b2 < 256)
    (h3 : b3 < 256) :
    (b0 ||| (b1 <<< 8) ||| (b2 <<< 16) ||| (b3 <<< 24)) % 2 ^ 32
      = b0 + 256 * b1 + 65536 * b2 + 16777216 * b3 := by
  have e1 : b0 ||| (b1 <<< 8) = 2 ^ 8 * b1 + b0 := by
    rw [Nat.shiftLeft_eq, Nat.mul_comm, Nat.lor_comm]
    exact (Nat.mul_add_lt_is_or h0 _).symm
  have l1 : 2 ^ 8 * b1 + b0 < 2 ^ 16 := by omega
  have e2 : (2 ^ 8 * b1 + b0) ||| (b2 <<< 16) = 2 ^ 16 * b2 + (2 ^ 8 * b1 + b0) := by
    rw [Nat.shiftLeft_eq, Nat.mul_comm b2, Nat.lor_comm]
    exact (Nat.mul_add_lt_is_or l1 _).symm
  have l2 : 2 ^ 16 * b2 + (2 ^ 8 * b1 + b0) < 2 ^ 24 := by omega
  have e3 : (2 ^ 16 * b2 + (2 ^ 8 * b1 + b0)) ||| (b3 <<< 24)
      = 2 ^ 24 * b3 + (2 ^ 16 * b2 + (2 ^ 8 * b1 + b0)) := by
    rw [Nat.shiftLeft_eq, Nat.mul_comm b3, Nat.lor_comm]
    exact (Nat.mul_add_lt_is_or l2 _).symm
  rw [e1, e2, e3]
  omega

/-- C8: a handshake response of at least four bytes whose first four bytes,
read as a little-endian 32-bit value, have the protocol-41 bit `0x200` clear
makes `parseHandshakeResponse41` return the protocol-41-required error with
only those four bytes consumed: the rest of the buffer is untouched and no
field other than the client capabilities changes. -/
theorem parseHandshakeResponse41_requires_protocol41 (c : connection)
    (b0 b1 b2 b3 : Nat) (rest : List Nat)
    (h0 : b0 < 256) (h1 : b1 < 256) (h2 : b2 < 256) (h3 : b3 < 256)
    (hbuf : c.buf = b0 :: b1 :: b2 :: b3 :: rest)
    (h41 : (b0 + 256 * b1 + 65536 * b2 + 16777216 * b3) &&& 0x200 = 0) :
    c.parseHandshakeResponse41 = (Outcome.error Error.errNotProtocol41,
      { c with
        buf := rest,
        clientCapabilities := b0 + 256 * b1 + 65536 * b2 + 16777216 * b3 }) := by
  have hp : clientProtocol41 = 0x200 := by decide
  simp only [connection.parseHandshakeResponse41, Buffer.Next, hbuf, LittleEndian.Uint32,
    List.take, List.drop, le32_decode b0 b1 b2 b3 h0 h1 h2 h3, hp, h41, if_true]

theorem parseHandshakeResponse41_requires_protocol41_witness :
    (sampleConn [] [0xff, 0xfd, 0xff, 0xff, 1, 2, 3] 1 0).parseHandshakeResponse41
      = (Outcome.error Error.errNotProtocol41,
        { sampleConn [] [0xff, 0xfd, 0xff, 0xff, 1, 2, 3] 1 0 with
          buf := [1, 2, 3],
          clientCapabilities := 0xff + 256 * 0xfd + 65536 * 0xff + 16777216 * 0xff }) :=
  parseHandshakeResponse41_requires_protocol41
    (sampleConn [] [0xff, 0xfd, 0xff, 0xff, 1, 2, 3] 1 0) 0xff 0xfd 0xff 0xff [1, 2, 3]
    (by decide) (by decide) (by decide) (by decide) (by decide) (by decide)

theorem parseHandshakeResponse41_prefix (c : connection)
    (b0 b1 b2 b3 m0 m1 m2 m3 ch : Nat) (reserved user rest : List Nat)
    (h0 : b0 < 256) (h1 : b1 < 256) (h2 : b2 < 256) (h3 : b3 < 256)
    (g0 : m0 < 256) (g1 : m1 < 256) (g2 : m2 < 256) (g3 : m3 < 256)
    (hres : reserved.length = 23) (huser : 0 ∉ user)
    (h41 : (b0 + 256 * b1 + 65536 * b2 + 16777216 * b3) &&& 0x200 ≠ 0)
    (hbuf : c.buf = b0 :: b1 :: b2 :: b3 :: m0 :: m1 :: m2 :: m3 :: ch ::
      (reserved ++ (user ++ 0 :: rest))) :
    c.parseHandshakeResponse41 = connection.parseAuthResp
      { c with
        buf := rest,
        clientCapabilities := b0 + 256 * b1 + 65536 * b2 + 16777216 * b3,
        maxPktSize := if m0 + 256 * m1 + 65536 * m2 + 16777216 * m3 = 0
          then defaultMaxPacketSize else m0 + 256 * m1 + 65536 * m2 + 16777216 * m3,
        charset := ch,
        username := user ++ [0] } := by
  have hp : clientProtocol41 = 0x200 := by decide
  by_cases hsz : m0 + 256 * m1 + 65536 * m2 + 16777216 * m3 = 0
  · simp only [connection.parseHandshakeResponse41, Buffer.Next, hbuf, LittleEndian.Uint32,
      List.take, List.drop, le32_decode b0 b1 b2 b3 h0 h1 h2 h3,
      le32_decode m0 m1 m2 m3 g0 g1 g2 g3, hp, h41, if_false, hsz,
      List.drop_left' hres, ReadBytes_found user rest 0 huser, if_true]
  · simp only [connection.parseHandshakeResponse41, Buffer.Next, hbuf, LittleEndian.Uint32,
      List.take, List.drop, le32_decode b0 b1 b2 b3 h0 h1 h2 h3,
      le32_decode m0 m1 m2 m3 g0 g1 g2 g3, hp, h41, if_false, hsz,
      List.drop_left' hres, ReadBytes_found user rest 0 huser, if_true]

theorem parseSchema_ok (c : connection) :
    ∃ s b, c.parseSchema = (Outcome.ok, { c with buf := b, schema := s }) := by
  have hdb : serverCapabilityFlags &&& clientConnectWithDB ≠ 0 := by decide
  unfold connection.parseSchema Buffer.ReadBytes
  rw [if_pos hdb]
  by_cases h : IndexByte c.buf 0 < 0
  · simp only [h, if_true]
    exact ⟨c.buf, [], by simp⟩
  · simp only [h, if_false]
    exact ⟨c.buf.take (IndexByte c.buf 0 + 1).toNat,
      c.buf.drop (IndexByte c.buf 0 + 1).toNat, by simp⟩

theorem parseAuthResp_eq (c : connection) :
    c.parseAuthResp =
      match Buffer.ReadByte c.buf with
      | ((_, some err), b) => (Outcome.error err, { c with buf := b })
      | ((n, none), b) =>
        if (b.take n).length ≠ n then
          (Outcome.error (Error.Errorf
            "Connection/readHandshakeResponse41: Insufficient data length. Expect %d, received %d"
            [n, (b.take n).length]), { c with buf := b.drop n })
        else connection.parseSchema { c with buf := b.drop n, authResp := b.take n } := by
  have hl : serverCapabilityFlags &&& clientPluginAuthLenencClientData = 0 := by decide
  have hsec : serverCapabilityFlags &&& clientSecureConnection ≠ 0 := by decide
  simp only [connection.parseAuthResp, Buffer.Next, hl, hsec, ne_eq, not_true_eq_false,
    not_false_eq_true, if_true, if_false]

/-- C9: on the handshake response carrying `'r' 'o' 'o' 't' 0x00` as username
the parse succeeds, but the stored username is the five bytes `root` followed
by the NUL terminator, not the four bytes `root`: `ReadBytes` returns the
delimiter with the data and the code stores the slice as it is.  The same
response cut off before the terminator is rejected with `io.EOF`. -/
theorem parseHandshakeResponse41_username_keeps_terminator :
    (sampleConn [] rootResponse 2 0).parseHandshakeResponse41.1 = Outcome.ok
      ∧ (sampleConn [] rootResponse 2 0).parseHandshakeResponse41.2.username
          = [114, 111, 111, 116, 0x00]
      ∧ (sampleConn [] rootResponse 2 0).parseHandshakeResponse41.2.username
          ≠ [114, 111, 111, 116]
      ∧ (sampleConn [] unterminatedResponse 2 0).parseHandshakeResponse41.1
          = Outcome.error Error.EOF := by
  decide

/-- C10: after the fixed fields and the NUL-terminated username of a
protocol-41 handshake response, `parseHandshakeResponse41` reads one length
byte `n` and exactly the next `n` bytes, which become `authResp`, and goes on
to the schema with the bytes after them; the parse then succeeds.  When no
byte is left for the length it returns `io.EOF`, and when fewer than `n`
bytes follow the length byte it returns the insufficient-data error.  The
server flags select this encoding: secure-connection is set and
length-encoded client data is not. -/
theorem parseHandshakeResponse41_authResp (c : connection)
    (b0 b1 b2 b3 m0 m1 m2 m3 ch : Nat) (reserved user rest : List Nat)
    (h0 : b0 < 256) (h1 : b1 < 256) (h2 : b2 < 256) (h3 : b3 < 256)
    (g0 : m0 < 256) (g1 : m1 < 256) (g2 : m2 < 256) (g3 : m3 < 256)
    (hres : reserved.length = 23) (huser : 0 ∉ user)
    (h41 : (b0 + 256 * b1 + 65536 * b2 + 16777216 * b3) &&& 0x200 ≠ 0)
    (hbuf : c.buf = b0 :: b1 :: b2 :: b3 :: m0 :: m1 :: m2 :: m3 :: ch ::
      (reserved ++ (user ++ 0 :: rest))) :
    (serverCapabilityFlags &&& clientSecureConnection ≠ 0
        ∧ serverCapabilityFlags &&& clientPluginAuthLenencClientData = 0)
      ∧ (∀ n a tail, rest = n :: (a ++ tail) → a.length = n →
          c.parseHandshakeResponse41.1 = Outcome.ok
            ∧ c.parseHandshakeResponse41.2.authResp = a
            ∧ c.parseHandshakeResponse41 = connection.parseSchema
                { c with
                  buf := tail,
                  clientCapabilities := b0 + 256 * b1 + 65536 * b2 + 16777216 * b3,
                  maxPktSize := if m0 + 256 * m1 + 65536 * m2 + 16777216 * m3 = 0
                    then defaultMaxPacketSize
                    else m0 + 256 * m1 + 65536 * m2 + 16777216 * m3,
                  charset := ch,
                  username := user ++ [0],
                  authResp := a })
      ∧ (rest = [] → c.parseHandshakeResponse41.1 = Outcome.error Error.EOF)
      ∧ (∀ n a, rest = n :: a → a.length < n →
          c.parseHandshakeResponse41.1 = Outcome.error (Error.Errorf
            "Connection/readHandshakeResponse41: Insufficient data length. Expect %d, received %d"
            [n, a.length])) := by
  have hpre := parseHandshakeResponse41_prefix c b0 b1 b2 b3 m0 m1 m2 m3 ch reserved user rest
    h0 h1 h2 h3 g0 g1 g2 g3 hres huser h41 hbuf
  refine ⟨⟨by decide, by decide⟩, ?_, ?_, ?_⟩
  · intro n a tail hr ha
    have key : c.parseHandshakeResponse41 = connection.parseSchema
        { c with
          buf := tail,
          clientCapabilities := b0 + 256 * b1 + 65536 * b2 + 16777216 * b3,
          maxPktSize := if m0 + 256 * m1 + 65536 * m2 + 16777216 * m3 = 0
            then defaultMaxPacketSize
            else m0 + 256 * m1 + 65536 * m2 + 16777216 * m3,
          charset := ch,
          username := user ++ [0],
          authResp := a } := by
      rw [hpre, parseAuthResp_eq, hr]
      simp only [Buffer.ReadByte, List.take_left' ha, List.drop_left' ha, ha, ne_eq,
        not_true_eq_false, if_false]
    obtain ⟨s, b, hs⟩ := parseSchema_ok
      { c with
        buf := tail,
        clientCapabilities := b0 + 256 * b1 + 65536 * b2 + 16777216 * b3,
        maxPktSize := if m0 + 256 * m1 + 65536 * m2 + 16777216 * m3 = 0
          then defaultMaxPacketSize
          else m0 + 256 * m1 + 65536 * m2 + 16777216 * m3,
        charset := ch,
        username := user ++ [0],
        authResp := a }
    refine ⟨?_, ?_, key⟩
    · rw [key, hs]
    · rw [key, hs]
  · intro hr
    rw [hpre, parseAuthResp_eq, hr]
    rfl
  · intro n a hr ha
    have hl : (a.take n).length ≠ n := by
      rw [List.length_take]
      omega
    have hl2 : (a.take n).length = a.length := by
      rw [List.length_take]
      omega
    have hne : ¬ a.length = n := by omega
    rw [hpre, parseAuthResp_eq, hr]
    simp only [Buffer.ReadByte, hl, ne_eq, not_false_eq_true, if_true, hl2, hne]

theorem parseHandshakeResponse41_authResp_witness :
    (sampleConn []
        ([0, 2, 0, 0, 0, 0, 0, 1, 33] ++ (List.replicate 23 0 ++ ([97, 98] ++ 0 :: [3, 7, 8, 9, 100, 0])))
        2 0).parseHandshakeResponse41.1 = Outcome.ok
      ∧ (sampleConn []
        ([0, 2, 0, 0, 0, 0, 0, 1, 33] ++ (List.replicate 23 0 ++ ([97, 98] ++ 0 :: [3, 7, 8, 9, 100, 0])))
        2 0).parseHandshakeResponse41.2.authResp = [7, 8, 9] :=
  ⟨((parseHandshakeResponse41_authResp
      (sampleConn []
        ([0, 2, 0, 0, 0, 0, 0, 1, 33] ++ (List.replicate 23 0 ++ ([97, 98] ++ 0 :: [3, 7, 8, 9, 100, 0])))
        2 0)
      0 2 0 0 0 0 0 1 33 (List.replicate 23 0) [97, 98] [3, 7, 8, 9, 100, 0]
      (by decide) (by decide) (by decide) (by decide) (by decide) (by decide) (by decide)
      (by decide) (by decide) (by decide) (by decide) (by decide)).2.1
        3 [7, 8, 9] [100, 0] (by decide) (by decide)).1,
    ((parseHandshakeResponse41_authResp
      (sampleConn []
        ([0, 2, 0, 0, 0, 0, 0, 1, 33] ++ (List.replicate 23 0 ++ ([97, 98] ++ 0 :: [3, 7, 8, 9, 100, 0])))
        2 0)
      0 2 0 0 0 0 0 1 33 (List.replicate 23 0) [97, 98] [3, 7, 8, 9, 100, 0]
      (by decide) (by decide) (by decide) (by decide) (by decide) (by decide) (by decide)
      (by decide) (by decide) (by decide) (by decide) (by decide)).2.1
        3 [7, 8, 9] [100, 0] (by decide) (by decide)).2.1⟩

/-! ## The loops never run out of fuel -/

theorem readPacketLoop_total : ∀ (fuel : Nat) (c : connection),
    c.input.length / 4 < fuel → ∃ r, c.readPacketLoop fuel = some r := by
  intro fuel
  induction fuel with
  | zero => intro c h; exact absurd h (Nat.not_lt_zero _)
  | succ fuel ih =>
    intro c h
    rw [connection.readPacketLoop]
    unfold connection.Read defaultHeaderSize
    rw [if_neg (by decide)]
    by_cases h0 : c.input = []
    · rw [if_pos h0]
      exact ⟨_, rfl⟩
    · rw [if_neg h0]
      simp only []
      by_cases hl : (c.input.take 4).length ≠ 4
      · rw [if_pos hl]
        exact ⟨_, rfl⟩
      · rw [if_neg hl]
        by_cases hq : (c.input.take 4).getD 3 0 ≠ c.sequence
        · rw [if_pos hq]
          exact ⟨_, rfl⟩
        · rw [if_neg hq]
          have hlen : 4 ≤ c.input.length := by
            rw [List.length_take] at hl
            omega
          generalize (c.input.take 4).getD 0 0 ||| ((c.input.take 4).getD 1 0 <<< 8)
            ||| ((c.input.take 4).getD 2 0 <<< 16) = pktLen
          unfold connection.CopyN
          simp only []
          by_cases hc : ((c.input.drop 4).take pktLen).length = pktLen
          · simp only [hc, if_true, ne_eq, not_true_eq_false, if_false]
            by_cases hm : pktLen < defaultMaxPacketSize
            · rw [if_pos hm]
              exact ⟨_, rfl⟩
            · rw [if_neg hm]
              apply ih
              simp only [List.length_drop]
              omega
          · simp only [hc, if_false]
            exact ⟨_, rfl⟩

theorem readPacket_total (c : connection) : ∃ r, c.readPacket = some r := by
  unfold connection.readPacket defaultHeaderSize
  exact readPacketLoop_total _ _ (Nat.lt_succ_self _)

theorem writePacket_total (c : connection) (hs : c.sequence < 256) :
    ∃ r, c.writePacket = some r := by
  by_cases h : wireSize c.buf ≤ c.room
  · exact ⟨_, writePacket_ok c hs h⟩
  · obtain ⟨e, c1, he⟩ := writePacketLoop_fail _ c (Nat.lt_succ_self _) (Nat.lt_of_not_le h)
    exact ⟨_, he⟩

/-! ## The schema name and the max packet size -/

/-- C11: the schema step runs (connect-with-DB is advertised) and a response
with no byte after the authentication response parses successfully with an
empty schema; but on a response whose remaining bytes are `test` followed by
`0x00` the stored schema is the five bytes `test` plus the NUL terminator,
not the four bytes `test`. -/
theorem parseHandshakeResponse41_schema_keeps_terminator :
    serverCapabilityFlags &&& clientConnectWithDB ≠ 0
      ∧ (sampleConn [] rootResponse 2 0).parseHandshakeResponse41.1 = Outcome.ok
      ∧ (sampleConn [] rootResponse 2 0).parseHandshakeResponse41.2.schema = []
      ∧ (sampleConn [] dbResponse 2 0).parseHandshakeResponse41.1 = Outcome.ok
      ∧ (sampleConn [] dbResponse 2 0).parseHandshakeResponse41.2.schema
          = [116, 101, 115, 116, 0x00]
      ∧ (sampleConn [] dbResponse 2 0).parseHandshakeResponse41.2.schema
          ≠ [116, 101, 115, 116] := by
  decide

theorem parseSchema_maxPktSize (c : connection) :
    c.parseSchema.2.maxPktSize = c.maxPktSize := by
  obtain ⟨s, b, h⟩ := parseSchema_ok c
  rw [h]

theorem parseAuthResp_maxPktSize (c : connection) :
    c.parseAuthResp.2.maxPktSize = c.maxPktSize := by
  rw [parseAuthResp_eq]
  rcases hb : c.buf with _ | ⟨n, r⟩
  · rfl
  · simp only [Buffer.ReadByte]
    by_cases hl : (r.take n).length ≠ n
    · rw [if_pos hl]
    · rw [if_neg hl, parseSchema_maxPktSize]

/-- C12: for every handshake response whose capability field has the
protocol-41 bit, `parseHandshakeResponse41` stores as `maxPktSize` the
little-endian value of the four size bytes when that value is not zero and
`16777215` when it is zero, whatever follows in the response and however the
parse ends; the stored value is never zero. -/
theorem parseHandshakeResponse41_maxPktSize (c : connection)
    (b0 b1 b2 b3 m0 m1 m2 m3 : Nat) (rest : List Nat)
    (h0 : b0 < 256) (h1 : b1 < 256) (h2 : b2 < 256) (h3 : b3 < 256)
    (g0 : m0 < 256) (g1 : m1 < 256) (g2 : m2 < 256) (g3 : m3 < 256)
    (h41 : (b0 + 256 * b1 + 65536 * b2 + 16777216 * b3) &&& 0x200 ≠ 0)
    (hbuf : c.buf = b0 :: b1 :: b2 :: b3 :: m0 :: m1 :: m2 :: m3 :: rest) :
    c.parseHandshakeResponse41.2.maxPktSize
        = (if m0 + 256 * m1 + 65536 * m2 + 16777216 * m3 = 0 then 16777215
            else m0 + 256 * m1 + 65536 * m2 + 16777216 * m3)
      ∧ c.parseHandshakeResponse41.2.maxPktSize ≠ 0 := by
  have hp : clientProtocol41 = 0x200 := by decide
  have key : c.parseHandshakeResponse41.2.maxPktSize
      = (if m0 + 256 * m1 + 65536 * m2 + 16777216 * m3 = 0 then 16777215
          else m0 + 256 * m1 + 65536 * m2 + 16777216 * m3) := by
    by_cases hsz : m0 + 256 * m1 + 65536 * m2 + 16777216 * m3 = 0
    · simp only [connection.parseHandshakeResponse41, Buffer.Next, hbuf,
        LittleEndian.Uint32, List.take, List.drop, le32_decode b0 b1 b2 b3 h0 h1 h2 h3,
        le32_decode m0 m1 m2 m3 g0 g1 g2 g3, hp, h41, if_false, hsz, if_true]
      rcases rest with _ | ⟨ch, r⟩
      · rfl
      · simp only [List.take, List.drop]
        split
        · rfl
        · rw [parseAuthResp_maxPktSize]
          rfl
    · simp only [connection.parseHandshakeResponse41, Buffer.Next, hbuf,
        LittleEndian.Uint32, List.take, List.drop, le32_decode b0 b1 b2 b3 h0 h1 h2 h3,
        le32_decode m0 m1 m2 m3 g0 g1 g2 g3, hp, h41, if_false, hsz]
      rcases rest with _ | ⟨ch, r⟩
      · rfl
      · simp only [List.take, List.drop]
        split
        · rfl
        · rw [parseAuthResp_maxPktSize]
  refine ⟨key, ?_⟩
  rw [key]
  split <;> omega

theorem parseHandshakeResponse41_maxPktSize_witness :
    (sampleConn [] rootResponse 2 0).parseHandshakeResponse41.2.maxPktSize
        = (if 0 + 256 * 0 + 65536 * 0 + 16777216 * 1 = 0 then 16777215
            else 0 + 256 * 0 + 65536 * 0 + 16777216 * 1)
      ∧ (sampleConn [] rootResponse 2 0).parseHandshakeResponse41.2.maxPktSize ≠ 0 :=
  parseHandshakeResponse41_maxPktSize (sampleConn [] rootResponse 2 0)
    0 2 0 0 0 0 0 1
    ([0x21] ++ List.replicate 23 0 ++ [114, 111, 111, 116, 0x00] ++ [0x00])
    (by decide) (by decide) (by decide) (by decide) (by decide) (by decide) (by decide)
    (by decide) (by decide) (by decide)

/-! ## Short handshake responses -/

/-- C14: `parseHandshakeResponse41` does not return on every payload: on the
empty payload and on a three-byte payload the capability read
`Uint32(Next(4))` indexes past the slice, and on an eight-byte payload with the
protocol-41 bit set the charset read `Next(1)[0]` does; the run-time panic
leaves the function, and `handlePlainHandshake` with it, when a client answers
the initial handshake with an empty frame. -/
theorem parseHandshakeResponse41_aborts_on_short_payload :
    (sampleConn [] [] 2 0).parseHandshakeResponse41.1 = Outcome.abort
      ∧ (sampleConn [] [0x00, 0x02, 0x00] 2 0).parseHandshakeResponse41.1 = Outcome.abort
      ∧ (sampleConn [] [0x00, 0x02, 0x00, 0x00, 0x00, 0x00, 0x00, 0x01] 2
          0).parseHandshakeResponse41.1 = Outcome.abort
      ∧ ((sampleConn [0x00, 0x00, 0x00, 0x01] [] 0 100).handlePlainHandshake).map Prod.fst
          = some Outcome.abort := by
  decide

/-! ## command.go -/

/-- C15: `execute` is total in the command code: it returns `nil` for the quit
code `0x01` and the fixed unknown-command SQL error, whose code is 1047, for
every other code, in the table or not; the command is left as it was. -/
theorem execute_total (cmd : command) :
    cmd.execute
        = (if cmd.cmd = 0x01 then Outcome.ok else Outcome.error (Error.sql SQLErrors_1047), cmd)
      ∧ SQLErrors_1047.Code = 1047
      ∧ comQuit = 0x01 ∧ comSleep = 0x00 ∧ comComQuery = 0x03
      ∧ (command.execute { cmd := 0x00, cmdName := "Sleep", stmt := [] }).1
          = Outcome.error (Error.sql SQLErrors_1047)
      ∧ (command.execute { cmd := 0x03, cmdName := "Query", stmt := [] }).1
          = Outcome.error (Error.sql SQLErrors_1047)
      ∧ (command.execute { cmd := 200, cmdName := "", stmt := [] }).1
          = Outcome.error (Error.sql SQLErrors_1047)
      ∧ (command.execute { cmd := 0x01, cmdName := "Quit", stmt := [] }).1 = Outcome.ok := by
  refine ⟨?_, by decide, by decide, by decide, by decide, by decide, by decide, by decide,
    by decide⟩
  have hq : comQuit = 1 := rfl
  unfold command.execute
  rw [hq]
  split <;> rfl

theorem commandName_length : commandName.length = 33 := by decide

/-- C16: a command byte of 33 or more, whatever follows it, is not decoded
into a command: `commandName[this.cmd]` indexes past the 33-entry table and
the run-time panic leaves `newCommand`, and `nextCommand` with it.  Every
code from 0 to 32 is decoded into a command with that code. -/
theorem newCommand_aborts_beyond_table (b : Nat) (tail : List Nat) :
    newCommand ((33 + b) :: tail) = (none, Outcome.abort)
      ∧ ((sampleConn [0x01, 0x00, 0x00, 0x00, 33] [] 5 0).nextCommand).map Prod.fst
          = some (none, Outcome.abort)
      ∧ (List.range 33).all
          (fun k => decide ((newCommand [k, 65, 0, 66]).1.map command.cmd = some k)) = true := by
  refine ⟨?_, by decide, by decide⟩
  have hn : commandName[33 + b]? = none := by
    apply List.getElem?_eq_none
    rw [commandName_length]
    omega
  simp only [newCommand, command.parseCommand, Buffer.Next, List.take, hn]

/-- C17: the payload `0x03` followed by `SELECT 1` decodes to code query, name
`Query` and statement `SELECT 1`; but when the bytes after the command byte
contain `0x00` the stored statement is the prefix up to and including that
NUL byte, not the prefix before it. -/
theorem parseCommand_stmt_keeps_terminator :
    newCommand (0x03 :: bytesOf "SELECT 1")
        = (some { cmd := comComQuery, cmdName := "Query", stmt := bytesOf "SELECT 1" },
            Outcome.ok)
      ∧ bytesOf "SELECT 1" = [83, 69, 76, 69, 67, 84, 32, 49]
      ∧ (newCommand [0x03, 83, 69, 76, 0x00, 88]).1.map command.stmt
          = some [83, 69, 76, 0x00]
      ∧ (newCommand [0x03, 83, 69, 76, 0x00, 88]).1.map command.stmt ≠ some [83, 69, 76] := by
  decide

/-! ## Response packets -/

theorem writePacket_single (c : connection) (hs : c.sequence < 256)
    (hlen : c.buf.length < defaultMaxPacketSize) (hroom : c.buf.length + 4 ≤ c.room) :
    c.writePacket = some (Outcome.ok,
      { c with
        buf := [],
        output := c.output ++ (frameHeader c.buf.length c.sequence ++ c.buf),
        room := c.room - (c.buf.length + 4),
        sequence := (c.sequence + 1) % 256 }) := by
  have hw := wireSize_of_lt c.buf hlen
  rw [writePacket_ok c hs (by rw [hw]; exact hroom)]
  simp only [connection.afterWrite, chunks_of_lt c.buf hlen, frameStream,
    Nat.mod_eq_of_lt hs, hw, Nat.div_eq_of_lt hlen, Nat.add_zero, List.append_nil]

theorem writeOkPacket_eq (c : connection) :
    c.writeOkPacket = connection.writePacket { c with buf := okPayload } := by
  simp [connection.writeOkPacket, Buffer.Reset, Buffer.WriteByte, Buffer.Write, okPacket,
    okPayload]

theorem writeOkPacket_single (c : connection) (hs : c.sequence < 256) (hroom : 11 ≤ c.room) :
    c.writeOkPacket = some (Outcome.ok,
      { c with
        buf := [],
        output := c.output ++ (frameHeader 7 c.sequence ++ okPayload),
        room := c.room - 11,
        sequence := (c.sequence + 1) % 256 }) := by
  have h7 : okPayload.length < defaultMaxPacketSize := by decide
  have h1 : ({ c with buf := okPayload } : connection).buf.length
      < defaultMaxPacketSize := h7
  rw [writeOkPacket_eq, writePacket_single { c with buf := okPayload } hs h1 hroom]
  rfl

theorem errPayload_length (e : SQLError) (hstate : 5 ≤ e.State.length) :
    (errPayload e).length = 9 + e.Message.length := by
  simp only [errPayload, List.length_append, List.length_cons, List.length_nil,
    List.length_take]
  omega

theorem writeErrPacket_eq (c : connection) (e : SQLError) (hstate : 5 ≤ e.State.length) :
    c.writeErrPacket (Error.sql e)
      = connection.writePacket { c with buf := errPayload e } := by
  have h5 : (e.State.take 5).length = 5 := by
    rw [List.length_take]
    omega
  simp only [connection.writeErrPacket, Buffer.Reset, Buffer.WriteByte, Buffer.Write,
    errPacket, h5, List.length_cons, List.length_nil, ne_eq, not_true_eq_false, if_false,
    Nat.shiftRight_eq_div_pow, errPayload]
  simp

theorem writeErrPacket_single (c : connection) (e : SQLError) (hstate : 5 ≤ e.State.length)
    (hs : c.sequence < 256) (hlen : 9 + e.Message.length < defaultMaxPacketSize)
    (hroom : 13 + e.Message.length ≤ c.room) :
    c.writeErrPacket (Error.sql e) = some (Outcome.ok,
      { c with
        buf := [],
        output := c.output ++ (frameHeader (9 + e.Message.length) c.sequence ++ errPayload e),
        room := c.room - (13 + e.Message.length),
        sequence := (c.sequence + 1) % 256 }) := by
  have hl := errPayload_length e hstate
  have h1 : ({ c with buf := errPayload e } : connection).buf.length
      < defaultMaxPacketSize := by
    show (errPayload e).length < defaultMaxPacketSize
    rw [hl]; exact hlen
  have h2 : ({ c with buf := errPayload e } : connection).buf.length + 4
      ≤ ({ c with buf := errPayload e } : connection).room := by
    show (errPayload e).length + 4 ≤ c.room
    rw [hl]; omega
  rw [writeErrPacket_eq c e hstate, writePacket_single { c with buf := errPayload e } hs h1 h2]
  have e3 : 9 + e.Message.length + 4 = 13 + e.Message.length := by omega
  simp only [hl, e3]

/-- C19: for every session and sequence byte `s`, `writeOkPacket` replaces the
buffer content by the seven bytes `0x00 0 0 0 0 0 0` and sends them with
`writePacket`: when the peer takes the 11 bytes, the stream receives exactly
one frame, the header `0x07 0x00 0x00 s` followed by those seven bytes, and
the sequence advances by one. -/
theorem writeOkPacket_wire (c : connection) (hs : c.sequence < 256) (hroom : 11 ≤ c.room) :
    c.writeOkPacket = connection.writePacket { c with buf := [0x00, 0, 0, 0, 0, 0, 0] }
      ∧ c.writeOkPacket = some (Outcome.ok,
        { c with
          buf := [],
          output := c.output ++ ([0x07, 0x00, 0x00, c.sequence] ++ [0x00, 0, 0, 0, 0, 0, 0]),
          room := c.room - 11,
          sequence := (c.sequence + 1) % 256 }) :=
  ⟨writeOkPacket_eq c, writeOkPacket_single c hs hroom⟩

theorem writeOkPacket_wire_witness :
    (sampleConn [] [9, 9, 9] 2 11).writeOkPacket = some (Outcome.ok,
      { sampleConn [] [9, 9, 9] 2 11 with
        buf := [],
        output := [] ++ ([0x07, 0x00, 0x00, 2] ++ [0x00, 0, 0, 0, 0, 0, 0]),
        room := 11 - 11,
        sequence := (2 + 1) % 256 }) :=
  (writeOkPacket_wire (sampleConn [] [9, 9, 9] 2 11) (by decide) (by decide)).2

/-- C20: for a SQL error with code `c`, a state of at least five bytes and
message `m`, `writeErrPacket` replaces the buffer content by `0xff`, the low
byte of `c`, the next byte of `c`, `#`, the first five state bytes and `m`
(`9 + len m` bytes) and sends it with `writePacket` as one logical packet;
when it fits one frame and the peer takes it, the stream receives the frame
header and exactly that payload.  For code 1047, state `HY000` and message
`Unknown command` the payload is `0xFF 0x17 0x04 '#' 'H' 'Y' '0' '0' '0'`
followed by `Unknown command`. -/
theorem writeErrPacket_wire (c : connection) (e : SQLError) (hstate : 5 ≤ e.State.length) :
    errPayload e = [0xff, e.Code % 256, e.Code / 256 % 256, 35] ++ e.State.take 5 ++ e.Message
      ∧ c.writeErrPacket (Error.sql e)
          = connection.writePacket { c with buf := errPayload e }
      ∧ (errPayload e).length = 9 + e.Message.length
      ∧ (c.sequence < 256 → 9 + e.Message.length < defaultMaxPacketSize →
          13 + e.Message.length ≤ c.room →
          c.writeErrPacket (Error.sql e) = some (Outcome.ok,
            { c with
              buf := [],
              output := c.output
                ++ (frameHeader (9 + e.Message.length) c.sequence ++ errPayload e),
              room := c.room - (13 + e.Message.length),
              sequence := (c.sequence + 1) % 256 }))
      ∧ SQLErrors_1047
          = { Code := 1047, State := bytesOf "HY000", Message := bytesOf "Unknown command" }
      ∧ errPayload SQLErrors_1047
          = [0xFF, 0x17, 0x04, 35, 72, 89, 48, 48, 48] ++ bytesOf "Unknown command"
      ∧ [35, 72, 89, 48, 48, 48] = bytesOf "#HY000" :=
  ⟨rfl, writeErrPacket_eq c e hstate, errPayload_length e hstate,
    fun hs hlen hroom => writeErrPacket_single c e hstate hs hlen hroom,
    by decide, by decide, by decide⟩

theorem writeErrPacket_wire_witness :
    (sampleConn [] [9, 9, 9] 1 28).writeErrPacket (Error.sql SQLErrors_1047)
      = some (Outcome.ok,
        { sampleConn [] [9, 9, 9] 1 28 with
          buf := [],
          output := [0x18, 0x00, 0x00, 0x01, 0xFF, 0x17, 0x04, 35, 72, 89, 48, 48, 48]
            ++ bytesOf "Unknown command",
          room := 0,
          sequence := 2 }) :=
  ((writeErrPacket_wire (sampleConn [] [9, 9, 9] 1 28) SQLErrors_1047 (by decide)).2.2.2.1
    (by decide) (by decide) (by decide)).trans (by decide)

/-! ## nextCommand -/

theorem nextCommand_single (c : connection) (p rest : List Nat)
    (hp : p.length < defaultMaxPacketSize)
    (hin : c.input = frameHeader p.length 0 ++ p ++ rest) :
    c.nextCommand = some (newCommand p,
      { c with buf := p, input := rest, sequence := 1 }) := by
  have h256 : ({ c with sequence := 0 } : connection).sequence < 256 :=
    Nat.zero_lt_succ _
  have hin2 : ({ c with sequence := 0 } : connection).input
      = frameStream ({ c with sequence := 0 } : connection).sequence ([] ++ [p]) ++ rest := by
    show c.input = frameStream 0 ([] ++ [p]) ++ rest
    rw [hin]
    simp [frameStream]
  have hr := readPacket_frames { c with sequence := 0 } [] p rest h256
    (fun f hf => absurd hf (List.not_mem_nil f)) hp hin2
  unfold connection.nextCommand
  simp only []
  rw [hr]
  simp

theorem nextCommand_mismatch (c : connection) (n q : Nat) (rest : List Nat) (hq : q ≠ 0)
    (hin : c.input = frameHeader n q ++ rest) :
    c.nextCommand = some ((none, Outcome.error
        (Error.Errorf "Connecton/readPacket: sequence number mismatch" [])),
      { c with buf := [], input := rest, sequence := 0 }) := by
  have h256 : ({ c with sequence := 0 } : connection).sequence < 256 :=
    Nat.zero_lt_succ _
  have hin2 : ({ c with sequence := 0 } : connection).input
      = frameStream ({ c with sequence := 0 } : connection).sequence []
        ++ (frameHeader n q ++ rest) := by
    show c.input = frameStream 0 [] ++ (frameHeader n q ++ rest)
    rw [hin]
    rfl
  obtain ⟨fuel, hf⟩ := readPacket_after_fulls { c with sequence := 0 } [] _ h256
    (fun f hf => absurd hf (List.not_mem_nil f)) hin2
  unfold connection.nextCommand
  simp only []
  rw [hf, readPacketLoop_mismatch fuel _ n q rest rfl hq]
  rfl

/-- C18: `nextCommand` sets the expected sequence to 0 before reading,
whatever it was: a single-frame command packet with sequence byte 0 is read
and decoded, leaving the sequence at 1, and a first frame with any other
sequence byte is rejected with the mismatch error and no command; the OK or
ERR packet written next goes out in one frame with sequence byte 1. -/
theorem nextCommand_resets_sequence (c : connection) (p rest : List Nat) (n q : Nat)
    (e : SQLError) (hp : p.length < defaultMaxPacketSize) :
    (c.input = frameHeader p.length 0 ++ p ++ rest →
        c.nextCommand = some (newCommand p,
          { c with buf := p, input := rest, sequence := 1 }))
      ∧ (q ≠ 0 → c.input = frameHeader n q ++ rest →
        c.nextCommand = some ((none, Outcome.error
            (Error.Errorf "Connecton/readPacket: sequence number mismatch" [])),
          { c with buf := [], input := rest, sequence := 0 }))
      ∧ (11 ≤ c.room →
        connection.writeOkPacket { c with buf := p, input := rest, sequence := 1 }
          = some (Outcome.ok,
            { c with
              buf := [],
              input := rest,
              output := c.output ++ ([0x07, 0x00, 0x00, 1] ++ okPayload),
              room := c.room - 11,
              sequence := 2 }))
      ∧ (5 ≤ e.State.length → 9 + e.Message.length < defaultMaxPacketSize →
        13 + e.Message.length ≤ c.room →
        connection.writeErrPacket { c with buf := p, input := rest, sequence := 1 }
            (Error.sql e)
          = some (Outcome.ok,
            { c with
              buf := [],
              input := rest,
              output := c.output ++ (frameHeader (9 + e.Message.length) 1 ++ errPayload e),
              room := c.room - (13 + e.Message.length),
              sequence := 2 })) := by
  have h1 : ({ c with buf := p, input := rest, sequence := 1 } : connection).sequence < 256 :=
    Nat.succ_lt_succ (Nat.zero_lt_succ _)
  refine ⟨nextCommand_single c p rest hp, nextCommand_mismatch c n q rest, ?_, ?_⟩
  · intro hroom
    rw [writeOkPacket_single { c with buf := p, input := rest, sequence := 1 } h1 hroom]
    rfl
  · intro hstate hlen hroom
    rw [writeErrPacket_single { c with buf := p, input := rest, sequence := 1 } e hstate h1
      hlen hroom]
    rfl

theorem nextCommand_resets_sequence_witness :
    (sampleConn [0x02, 0x00, 0x00, 0x00, 0x03, 65, 7, 7] [9] 5 20).nextCommand
      = some ((some { cmd := 0x03, cmdName := "Query", stmt := [65] }, Outcome.ok),
        { sampleConn [0x02, 0x00, 0x00, 0x00, 0x03, 65, 7, 7] [9] 5 20 with
          buf := [0x03, 65], input := [7, 7], sequence := 1 }) :=
  ((nextCommand_resets_sequence (sampleConn [0x02, 0x00, 0x00, 0x00, 0x03, 65, 7, 7] [9] 5 20)
    [0x03, 65] [7, 7] 0 0 SQLErrors_1047 (by decide)).1 (by decide)).trans (by decide)

/-! ## The handshake as a whole -/

theorem initHandshakeV10_eq (c : connection) (hc : c.cipher.length = 20) :
    c.initHandshakeV10
      = (Outcome.ok, { c with buf := handshakePayload c.id c.cipher }) := by
  have h8 : (c.cipher.take 8).length = 8 := by
    rw [List.length_take, hc]; rfl
  have h12 : ((c.cipher.drop 8).take 12).length = 12 := by
    rw [List.length_take, List.length_drop, hc]; rfl
  have hd : (c.cipher.drop 8).take 12 = c.cipher.drop 8 :=
    List.take_of_length_le (by rw [List.length_drop, hc])
  have hw : serverCapabilityFlags % 2 ^ 16 % 256 = 0x8b := by decide
  have hw2 : (serverCapabilityFlags % 2 ^ 16) >>> 8 % 256 = 0x86 := by decide
  simp only [connection.initHandshakeV10, Buffer.Reset, Buffer.WriteByte, Buffer.Write,
    Buffer.WriteUint16LE, h8, h12, hw, hw2, List.length_cons, List.length_nil,
    ne_eq, not_true_eq_false, if_false, byteOfInt_shift8,
    byteOfInt_shift16, byteOfInt_shift24, defaultProtocolVersion, collationUtf8General]
  simp only [hd, byteOfInt_low, handshakePayload]
  simp [List.replicate]

theorem handshakePayload_length (id : Int) (cipher : List Nat) (hc : cipher.length = 20) :
    (handshakePayload id cipher).length = 51 := by
  simp [handshakePayload, hc]

theorem parseHandshakeResponse41_ok (c : connection)
    (b0 b1 b2 b3 m0 m1 m2 m3 ch : Nat) (reserved user auth db : List Nat)
    (h0 : b0 < 256) (h1 : b1 < 256) (h2 : b2 < 256) (h3 : b3 < 256)
    (g0 : m0 < 256) (g1 : m1 < 256) (g2 : m2 < 256) (g3 : m3 < 256)
    (hres : reserved.length = 23) (huser : 0 ∉ user) (hauth : auth.length ≤ 255)
    (h41 : (b0 + 256 * b1 + 65536 * b2 + 16777216 * b3) &&& 0x200 ≠ 0)
    (hbuf : c.buf = handshakeResponse b0 b1 b2 b3 m0 m1 m2 m3 ch reserved user auth db) :
    ∃ s b, c.parseHandshakeResponse41 = (Outcome.ok,
      { c with
        buf := b,
        clientCapabilities := b0 + 256 * b1 + 65536 * b2 + 16777216 * b3,
        maxPktSize := if m0 + 256 * m1 + 65536 * m2 + 16777216 * m3 = 0
          then defaultMaxPacketSize else m0 + 256 * m1 + 65536 * m2 + 16777216 * m3,
        charset := ch,
        username := user ++ [0],
        authResp := auth,
        schema := s }) := by
  have hn : auth.length % 256 = auth.length := Nat.mod_eq_of_lt (by omega)
  have hpre := parseHandshakeResponse41_prefix c b0 b1 b2 b3 m0 m1 m2 m3 ch reserved user
    (auth.length % 256 :: (auth ++ db)) h0 h1 h2 h3 g0 g1 g2 g3 hres huser h41 hbuf
  rw [hpre, parseAuthResp_eq]
  simp only [Buffer.ReadByte, hn, List.take_left, List.drop_left, ne_eq, not_true_eq_false,
    if_false]
  obtain ⟨s, b, hs⟩ := parseSchema_ok
    { c with
      buf := db,
      clientCapabilities := b0 + 256 * b1 + 65536 * b2 + 16777216 * b3,
      maxPktSize := if m0 + 256 * m1 + 65536 * m2 + 16777216 * m3 = 0
        then defaultMaxPacketSize else m0 + 256 * m1 + 65536 * m2 + 16777216 * m3,
      charset := ch,
      username := user ++ [0],
      authResp := auth }
  exact ⟨s, b, hs⟩

/-- C13: on a fresh session (sequence 0) whose peer answers with one frame,
sequence byte 1, carrying a well-formed protocol-41 handshake response,
`handlePlainHandshake` succeeds for every username without a NUL byte and
every authentication response of at most 255 bytes, and what it writes is
exactly the initial-handshake packet in one frame with sequence byte 0
followed by the OK packet in one frame with sequence byte 2. -/
theorem handlePlainHandshake_accepts (c : connection)
    (b0 b1 b2 b3 m0 m1 m2 m3 ch : Nat) (reserved user auth db rest : List Nat)
    (h0 : b0 < 256) (h1 : b1 < 256) (h2 : b2 < 256) (h3 : b3 < 256)
    (g0 : m0 < 256) (g1 : m1 < 256) (g2 : m2 < 256) (g3 : m3 < 256)
    (hres : reserved.length = 23) (huser : 0 ∉ user) (hauth : auth.length ≤ 255)
    (h41 : (b0 + 256 * b1 + 65536 * b2 + 16777216 * b3) &&& 0x200 ≠ 0)
    (hc : c.cipher.length = 20) (hseq : c.sequence = 0) (hroom : 66 ≤ c.room)
    (hlen : (handshakeResponse b0 b1 b2 b3 m0 m1 m2 m3 ch reserved user auth db).length
      < defaultMaxPacketSize)
    (hin : c.input = frameHeader
        (handshakeResponse b0 b1 b2 b3 m0 m1 m2 m3 ch reserved user auth db).length 1
      ++ handshakeResponse b0 b1 b2 b3 m0 m1 m2 m3 ch reserved user auth db ++ rest) :
    ∃ c1, c.handlePlainHandshake = some (Outcome.ok, c1)
      ∧ c1.output = c.output ++ (frameHeader 51 0 ++ handshakePayload c.id c.cipher)
          ++ (frameHeader 7 2 ++ okPayload)
      ∧ c1.input = rest ∧ c1.username = user ++ [0] ∧ c1.authResp = auth
      ∧ c1.sequence = 3 := by
  obtain ⟨input, output, room, id, buf, cipher, sequence, caps, username, maxPktSize,
    charset, schema, authResp⟩ := c
  simp only [] at hc hseq hroom hin
  subst hseq
  subst hin
  have hH := handshakePayload_length id cipher hc
  have hHlt : (handshakePayload id cipher).length < defaultMaxPacketSize := by
    rw [hH]; decide
  obtain ⟨s, b, hparse⟩ := parseHandshakeResponse41_ok
    { input := rest,
      output := output ++ (frameHeader 51 0 ++ handshakePayload id cipher),
      room := room - 55, id := id,
      buf := handshakeResponse b0 b1 b2 b3 m0 m1 m2 m3 ch reserved user auth db,
      cipher := cipher, sequence := 2, clientCapabilities := caps,
      username := username, maxPktSize := maxPktSize, charset := charset, schema := schema,
      authResp := authResp }
    b0 b1 b2 b3 m0 m1 m2 m3 ch reserved user auth db h0 h1 h2 h3 g0 g1 g2 g3 hres huser hauth
    h41 rfl
  refine ⟨
    { input := rest,
      output := output ++ (frameHeader 51 0 ++ handshakePayload id cipher)
        ++ (frameHeader 7 2 ++ okPayload),
      room := room - 55 - 11, id := id, buf := [], cipher := cipher, sequence := 3,
      clientCapabilities := b0 + 256 * b1 + 65536 * b2 + 16777216 * b3,
      username := user ++ [0],
      maxPktSize := if m0 + 256 * m1 + 65536 * m2 + 16777216 * m3 = 0
        then defaultMaxPacketSize else m0 + 256 * m1 + 65536 * m2 + 16777216 * m3,
      charset := ch, schema := s, authResp := auth }, ?h1, ?h2⟩
  case h1 =>
    unfold connection.handlePlainHandshake
    rw [initHandshakeV10_eq _ hc]
    simp only []
    rw [writePacket_single _ (Nat.zero_lt_succ _) hHlt (by show _ + 4 ≤ room; rw [hH]; omega)]
    simp only [hH, Nat.reduceAdd, Nat.reduceMod]
    rw [readPacket_frames _ [] (handshakeResponse b0 b1 b2 b3 m0 m1 m2 m3 ch reserved user auth db)
      rest (Nat.succ_lt_succ (Nat.zero_lt_succ _))
      (fun f hf => absurd hf (List.not_mem_nil f)) hlen
      (by simp [frameStream])]
    simp only [List.nil_append, List.flatten_cons, List.flatten_nil, List.append_nil,
      List.length_nil, Nat.reduceAdd, Nat.reduceMod]
    rw [hparse]
    simp only []
    rw [writeOkPacket_single _ (Nat.succ_lt_succ (Nat.succ_lt_succ (Nat.zero_lt_succ _)))
      (by show 11 ≤ room - 55; omega)]
    rfl
  case h2 =>
    simp

theorem handlePlainHandshake_accepts_witness :
    ∃ c1, (sampleConn rootStream [] 0 66).handlePlainHandshake = some (Outcome.ok, c1)
      ∧ c1.output = (sampleConn rootStream [] 0 66).output
          ++ (frameHeader 51 0 ++ handshakePayload (sampleConn rootStream [] 0 66).id
            (sampleConn rootStream [] 0 66).cipher)
          ++ (frameHeader 7 2 ++ okPayload)
      ∧ c1.input = [] ∧ c1.username = [114, 111, 111, 116] ++ [0] ∧ c1.authResp = []
      ∧ c1.sequence = 3 :=
  handlePlainHandshake_accepts (sampleConn rootStream [] 0 66)
    0x00 0x02 0x00 0x00 0x00 0x00 0x00 0x01 0x21 (List.replicate 23 0)
    [114, 111, 111, 116] [] [] []
    (by decide) (by decide) (by decide) (by decide) (by decide) (by decide) (by decide)
    (by decide) (by decide) (by decide) (by decide) (by decide) (by decide) (by decide)
    (by decide) (by decide) (by decide)

/-! ## Error values that are not SQL errors -/

/-- C21: for every error value that is not a SQL error, `writeErrPacket`
returns the type-assertion error and the session is exactly as before:
nothing is written, the buffer and the sequence number are unchanged. -/
theorem writeErrPacket_rejects_non_sql (c : connection) (e : Error)
    (h : ∀ s, e ≠ Error.sql s) :
    c.writeErrPacket e = some (Outcome.error
      (Error.Errorf "Connection/writeErrPacket: Cannot type assert sql error" []), c) := by
  cases e with
  | sql s => exact absurd rfl (h s)
  | EOF => rfl
  | Errorf f a => rfl
  | errNotProtocol41 => rfl
  | writeError => rfl

theorem writeErrPacket_rejects_non_sql_witness :
    (sampleConn [1, 2] [9, 9] 7 50).writeErrPacket Error.EOF = some (Outcome.error
      (Error.Errorf "Connection/writeErrPacket: Cannot type assert sql error" []),
      sampleConn [1, 2] [9, 9] 7 50) :=
  writeErrPacket_rejects_non_sql (sampleConn [1, 2] [9, 9] 7 50) Error.EOF
    (fun _ h => Error.noConfusion h)

/-! ## The constant tables -/

/-- C23: the command codes are 0, 1, ..., 32 in declaration order, from
`comSleep = 0` to `comResetConnection = 31` and `comEnd = 32`; `commandName`
has 33 entries and pairs every code with its name, in particular
`comInitDB = 2` with `Init DB`, `comProcessInfo = 10` with `Processlist`,
`comTime = 15` with `Time`, `comStmtExecute = 23` with `Execute` and
`comResetConnection = 31` with `Reset Connection`. -/
theorem serverCommand_table :
    serverCommands = List.range 33
      ∧ comSleep = 0 ∧ comResetConnection = 31 ∧ comEnd = 32
      ∧ commandName.length = 33
      ∧ serverCommands.map (fun c => commandName[c]?) = commandName.map some
      ∧ List.zip serverCommands commandName =
          [(comSleep, "Sleep"), (comQuit, "Quit"), (comInitDB, "Init DB"),
            (comComQuery, "Query"), (comFieldList, "Field List"),
            (comCreateDB, "Create DB"), (comDropDB, "Drop DB"), (comRefresh, "Refresh"),
            (comShutdown, "Shutdown"), (comStatistics, "Statistics"),
            (comProcessInfo, "Processlist"), (comConnect, "Connect"),
            (comProcessKill, "Kill"), (comDebug, "Debug"), (comPing, "Ping"),
            (comTime, "Time"), (comDelayedInsert, "Delayed insert"),
            (comChangeUser, "Change user"), (comBinlogDump, "Binlog Dump"),
            (comTableDump, "Table Dump"), (comConnectOut, "Connect Out"),
            (comRegisterSlave, "Register Slave"), (comStmtPrepare, "Prepare"),
            (comStmtExecute, "Execute"), (comStmtSendLongData, "Long Data"),
            (comStmtClose, "Close stmt"), (comStmtReset, "Reset stmt"),
            (comSetOption, "Set option"), (comStmtFetch, "Fetch"), (comDaemon, "Daemon"),
            (comBinlogDumpGTID, "Binlog Dump GTID"),
            (comResetConnection, "Reset Connection"), (comEnd, "Error")]
      ∧ comInitDB = 2 ∧ commandName[comInitDB]? = some "Init DB"
      ∧ comProcessInfo = 10 ∧ commandName[comProcessInfo]? = some "Processlist"
      ∧ comTime = 15 ∧ commandName[comTime]? = some "Time"
      ∧ comStmtExecute = 23 ∧ commandName[comStmtExecute]? = some "Execute"
      ∧ comResetConnection = 31
      ∧ commandName[comResetConnection]? = some "Reset Connection" := by
  decide

/-- C24: in declaration order the `fieldFlag`, `refreshFlag` and
`serverStatusFlag` constants are `2^0, 2^1, ...`, and the `clientFlag`
constants are `2^0 .. 2^22` followed by `2^30` and `2^31`; so every flag is a
single bit and no two flags of a family share a bit.  In particular
`flagBlob = 16`, `flagFieldInPartFunc = 524288`, `refreshForExport = 0x100000`,
`clientProtocol41 = 512`, `clientCanHandleExpiredPasswords = 4194304`,
`serverStatusLastRowSent = 128` and `serverStatusInTransReadOnly = 8192`. -/
theorem flag_families_are_single_bits :
    fieldFlags = (List.range 20).map (fun k => 2 ^ k)
      ∧ refreshFlags = (List.range 21).map (fun k => 2 ^ k)
      ∧ clientFlags = (List.range 23).map (fun k => 2 ^ k) ++ [2 ^ 30, 2 ^ 31]
      ∧ serverStatusFlags = (List.range 14).map (fun k => 2 ^ k)
      ∧ fieldFlags.Pairwise (fun a b => a &&& b = 0)
      ∧ refreshFlags.Pairwise (fun a b => a &&& b = 0)
      ∧ clientFlags.Pairwise (fun a b => a &&& b = 0)
      ∧ serverStatusFlags.Pairwise (fun a b => a &&& b = 0)
      ∧ clientSSLVerifyServerCert = 2 ^ 30 ∧ clientRememberOptions = 2 ^ 31
      ∧ flagNotNull = 1 ∧ flagBlob = 16 ∧ flagTimestamp = 1024 ∧ flagOnUpdateNow = 8192
      ∧ flagFieldInPartFunc = 524288
      ∧ refreshGrant = 1 ∧ refreshSlave = 64 ∧ refreshEngineLog = 512
      ∧ refreshSlowLog = 8192 ∧ refreshForExport = 0x100000
      ∧ clientLongPassword = 1 ∧ clientProtocol41 = 512 ∧ clientMultiStatements = 65536
      ∧ clientCanHandleExpiredPasswords = 4194304
      ∧ serverStatusInTrans = 1 ∧ serverStatusLastRowSent = 128
      ∧ serverStatusInTransReadOnly = 8192 := by
  decide

/-! ## Empty command packets -/

/-- C26: a correctly framed command packet with an empty payload (the single
frame `00 00 00 00`) is not answered by a command or an error value:
`data.Next(1)[0]` indexes an empty slice and the run-time panic leaves
`newCommand` and `nextCommand`. -/
theorem nextCommand_aborts_on_empty_payload :
    newCommand [] = (none, Outcome.abort)
      ∧ ((sampleConn [0x00, 0x00, 0x00, 0x00] [] 5 0).nextCommand).map Prod.fst
          = some (none, Outcome.abort)
      ∧ ((sampleConn [0x00, 0x00, 0x00, 0x00] [] 5 0).handleCommandPhase).map Prod.fst
          = some Outcome.abort := by
  decide

/-! ## The registry of live connections -/

/-- C27: after one connection has been accepted and has finished, its entry
is cleared (whatever the outcome of its phases) and the shutdown loop calls
`Close` on the cleared entry, a nil interface value: the shutdown path panics
instead of completing.  With a second connection still registered behind the
cleared entry, that connection is never closed.  When no entry has been
cleared, shutdown closes every registered connection and completes. -/
theorem shutdown_aborts_on_cleared_entry :
    (server.run [Event.accept 7, Event.finish 7 0 Outcome.ok] ⟨[], []⟩).conns = [none]
      ∧ (server.run [Event.accept 7, Event.finish 7 0 (Outcome.error Error.EOF)]
          ⟨[], []⟩).conns = [none]
      ∧ (server.run [Event.accept 7, Event.finish 7 0 Outcome.ok] ⟨[], []⟩).shutdown.1
          = Outcome.abort
      ∧ (server.run [Event.accept 7, Event.accept 8, Event.finish 7 0 Outcome.ok]
          ⟨[], []⟩).conns = [none, some 8]
      ∧ (server.run [Event.accept 7, Event.accept 8, Event.finish 7 0 Outcome.ok]
          ⟨[], []⟩).shutdown = (Outcome.abort, ⟨[none, some 8], [7]⟩)
      ∧ (server.run [Event.accept 7, Event.accept 8] ⟨[], []⟩).shutdown
          = (Outcome.ok, ⟨[some 7, some 8], [7, 8]⟩) := by
  decide

/-! ## The command phase -/

theorem newCommand_ok (code : Nat) (tail : List Nat) (h : code < 33) :
    ∃ name stmt, newCommand (code :: tail)
      = (some { cmd := code, cmdName := name, stmt := stmt }, Outcome.ok) := by
  have hlt : code < commandName.length := by rw [commandName_length]; exact h
  have hn : commandName[code]? = some commandName[code] := List.getElem?_eq_getElem hlt
  by_cases hi : IndexByte tail 0 < 0
  · refine ⟨commandName[code], tail, ?_⟩
    simp [newCommand, command.parseCommand, Buffer.Next, hn, Buffer.ReadBytes, hi]
  · refine ⟨commandName[code], tail.take (IndexByte tail 0 + 1).toNat, ?_⟩
    simp [newCommand, command.parseCommand, Buffer.Next, hn, Buffer.ReadBytes, hi]

theorem handleCommandPhaseLoop_step (fuel : Nat) (c : connection) (code : Nat)
    (tail rest : List Nat) (hcode : code < 33) (hq : code ≠ 1)
    (hlen : (code :: tail).length < defaultMaxPacketSize) (hroom : 28 ≤ c.room)
    (hin : c.input = frameHeader (code :: tail).length 0 ++ (code :: tail) ++ rest) :
    c.handleCommandPhaseLoop (fuel + 1) = connection.handleCommandPhaseLoop fuel
      { c with
        buf := [],
        input := rest,
        output := c.output ++ (frameHeader 24 1 ++ errPayload SQLErrors_1047),
        room := c.room - 28,
        sequence := 2 } := by
  obtain ⟨name, stmt, hn⟩ := newCommand_ok code tail hcode
  have hs1 : ({ c with buf := code :: tail, input := rest, sequence := 1 }
      : connection).sequence < 256 := Nat.succ_lt_succ (Nat.zero_lt_succ _)
  have hw := writeErrPacket_single
    { c with buf := code :: tail, input := rest, sequence := 1 } SQLErrors_1047
    (by decide) hs1 (by decide) hroom
  have hquit : comQuit = 1 := rfl
  rw [connection.handleCommandPhaseLoop, nextCommand_single c (code :: tail) rest hlen hin, hn]
  simp only [hquit, hq, if_false, command.execute]
  rw [hw]
  rfl

theorem handleCommandPhaseLoop_quit (fuel : Nat) (c : connection) (q rest : List Nat)
    (hlen : (1 :: q).length < defaultMaxPacketSize)
    (hin : c.input = frameHeader (1 :: q).length 0 ++ (1 :: q) ++ rest) :
    c.handleCommandPhaseLoop (fuel + 1) = some (Outcome.ok,
      { c with buf := 1 :: q, input := rest, sequence := 1 }) := by
  obtain ⟨name, stmt, hn⟩ := newCommand_ok 1 q (by decide)
  have hquit : comQuit = 1 := rfl
  rw [connection.handleCommandPhaseLoop, nextCommand_single c (1 :: q) rest hlen hin, hn]
  simp only [hquit, if_true]

theorem commandStream_cons (p : List Nat) (ps : List (List Nat)) :
    commandStream (p :: ps) = frameHeader p.length 0 ++ p ++ commandStream ps := by
  simp [commandStream]

theorem commandStream_length_ge (ps : List (List Nat)) :
    4 * ps.length ≤ (commandStream ps).length := by
  induction ps with
  | nil => simp [commandStream]
  | cons p ps ih =>
    rw [commandStream_cons]
    simp only [List.length_append, frameHeader_length, List.length_cons]
    omega

theorem handleCommandPhaseLoop_answers : ∀ (ps : List (List Nat)) (fuel : Nat)
    (c : connection) (q rest : List Nat),
    (∀ p ∈ ps, p.length < defaultMaxPacketSize
      ∧ ∃ code tail, p = code :: tail ∧ code < 33 ∧ code ≠ 1) →
    (1 :: q).length < defaultMaxPacketSize → 28 * ps.length ≤ c.room → ps.length < fuel →
    c.input = commandStream ps ++ (frameHeader (1 :: q).length 0 ++ (1 :: q) ++ rest) →
    c.handleCommandPhaseLoop fuel = some (Outcome.ok,
      { c with
        buf := 1 :: q,
        input := rest,
        sequence := 1,
        output := c.output
          ++ (List.replicate ps.length (frameHeader 24 1 ++ errPayload SQLErrors_1047)).flatten,
        room := c.room - 28 * ps.length }) := by
  intro ps
  induction ps with
  | nil =>
    intro fuel c q rest _ hq _ hfuel hin
    obtain ⟨fuel, rfl⟩ : ∃ k, fuel = k + 1 :=
      ⟨fuel - 1, (Nat.sub_add_cancel (Nat.lt_of_le_of_lt (Nat.zero_le _) hfuel)).symm⟩
    have hin2 : c.input = frameHeader (1 :: q).length 0 ++ (1 :: q) ++ rest := by
      rw [hin]; rfl
    rw [handleCommandPhaseLoop_quit fuel c q rest hq hin2]
    simp
  | cons p ps ih =>
    intro fuel c q rest hps hq hroom hfuel hin
    obtain ⟨fuel, rfl⟩ : ∃ k, fuel = k + 1 :=
      ⟨fuel - 1, (Nat.sub_add_cancel (Nat.lt_of_le_of_lt (Nat.zero_le _) hfuel)).symm⟩
    obtain ⟨hp, code, tail, rfl, hcode, hne⟩ := hps p (List.mem_cons_self _ _)
    have hlen : ((code :: tail) :: ps).length = ps.length + 1 := List.length_cons _ _
    have hroom1 : 28 ≤ c.room := by
      rw [hlen] at hroom
      omega
    have hin2 : c.input = frameHeader (code :: tail).length 0 ++ (code :: tail)
        ++ (commandStream ps ++ (frameHeader (1 :: q).length 0 ++ (1 :: q) ++ rest)) := by
      rw [hin, commandStream_cons]
      simp only [List.append_assoc]
    rw [handleCommandPhaseLoop_step fuel c code tail _ hcode hne hp hroom1 hin2]
    rw [ih fuel
      { c with
        buf := [],
        input := commandStream ps ++ (frameHeader (1 :: q).length 0 ++ (1 :: q) ++ rest),
        output := c.output ++ (frameHeader 24 1 ++ errPayload SQLErrors_1047),
        room := c.room - 28,
        sequence := 2 }
      q rest (fun p2 h2 => hps p2 (List.mem_cons_of_mem _ h2)) hq
      (by show 28 * ps.length ≤ c.room - 28; rw [hlen] at hroom; omega)
      (by rw [hlen] at hfuel; omega) rfl]
    have e1 : c.room - 28 - 28 * ps.length = c.room - 28 * (ps.length + 1) := by omega
    simp only [hlen, e1, List.replicate_succ, List.flatten_cons, List.append_assoc]

/-- C22: on a stream of `n` single-frame command packets (sequence byte 0,
payload shorter than a full frame, command byte in the table and different
from quit) followed by a quit packet, `handleCommandPhase` returns `nil`,
consumes exactly those packets and, when the peer takes the `28 n` bytes,
writes exactly `n` ERR packets for error 1047, each one frame
`18 00 00 01` followed by the 24 payload bytes, and nothing else: no OK
packet, and nothing in response to quit. -/
theorem handleCommandPhase_answers (c : connection) (ps : List (List Nat))
    (q rest : List Nat)
    (hps : ∀ p ∈ ps, p.length < defaultMaxPacketSize
      ∧ ∃ code tail, p = code :: tail ∧ code < 33 ∧ code ≠ 1)
    (hq : (1 :: q).length < defaultMaxPacketSize) (hroom : 28 * ps.length ≤ c.room)
    (hin : c.input
      = commandStream ps ++ (frameHeader (1 :: q).length 0 ++ (1 :: q) ++ rest)) :
    c.handleCommandPhase = some (Outcome.ok,
        { c with
          buf := 1 :: q,
          input := rest,
          sequence := 1,
          output := c.output
            ++ (List.replicate ps.length
              (frameHeader 24 1 ++ errPayload SQLErrors_1047)).flatten,
          room := c.room - 28 * ps.length })
      ∧ frameHeader 24 1 ++ errPayload SQLErrors_1047
          = [0x18, 0x00, 0x00, 0x01, 0xFF, 0x17, 0x04, 35, 72, 89, 48, 48, 48]
            ++ bytesOf "Unknown command" := by
  refine ⟨?_, by decide⟩
  have hlen : 4 * ps.length + 4 ≤ c.input.length := by
    have := commandStream_length_ge ps
    rw [hin]
    simp only [List.length_append, frameHeader_length, List.length_cons]
    omega
  have hfuel : ps.length < c.input.length / defaultHeaderSize + 1 := by
    unfold defaultHeaderSize
    omega
  exact handleCommandPhaseLoop_answers ps _ c q rest hps hq hroom hfuel hin

theorem handleCommandPhase_answers_witness :
    (sampleConn (commandStream [0x03 :: bytesOf "SELECT 1", [14]] ++ [1, 0, 0, 0, 1]) [] 9
        56).handleCommandPhase
      = some (Outcome.ok,
        { sampleConn (commandStream [0x03 :: bytesOf "SELECT 1", [14]] ++ [1, 0, 0, 0, 1]) []
            9 56 with
          buf := [1],
          input := [],
          sequence := 1,
          output := ([0x18, 0x00, 0x00, 0x01, 0xFF, 0x17, 0x04, 35, 72, 89, 48, 48, 48]
              ++ bytesOf "Unknown command")
            ++ ([0x18, 0x00, 0x00, 0x01, 0xFF, 0x17, 0x04, 35, 72, 89, 48, 48, 48]
              ++ bytesOf "Unknown command"),
          room := 0 }) :=
  ((handleCommandPhase_answers
    (sampleConn (commandStream [0x03 :: bytesOf "SELECT 1", [14]] ++ [1, 0, 0, 0, 1]) [] 9 56)
    [0x03 :: bytesOf "SELECT 1", [14]] [] []
    (by
      intro p hp
      simp only [List.mem_cons, List.mem_singleton, List.not_mem_nil, or_false] at hp
      rcases hp with rfl | rfl
      · exact ⟨by decide, 0x03, bytesOf "SELECT 1", rfl, by decide, by decide⟩
      · exact ⟨by decide, 14, [], rfl, by decide, by decide⟩)
    (by decide) (by decide) (by decide)).1).trans (by decide)

/-! ## A failed handshake -/

theorem readPacketLoop_stream : ∀ (fuel : Nat) (c c1 : connection) (r : Outcome),
    c.readPacketLoop fuel = some (r, c1) → c1.output = c.output ∧ c1.room = c.room := by
  intro fuel
  induction fuel with
  | zero => intro c c1 r h; cases h
  | succ fuel ih =>
    intro c c1 r h
    rw [connection.readPacketLoop] at h
    unfold connection.Read defaultHeaderSize at h
    rw [if_neg (by decide)] at h
    by_cases h0 : c.input = []
    · rw [if_pos h0] at h
      cases h
      exact ⟨rfl, rfl⟩
    · rw [if_neg h0] at h
      simp only [] at h
      by_cases hl : (c.input.take 4).length ≠ 4
      · rw [if_pos hl] at h
        cases h
        exact ⟨rfl, rfl⟩
      · rw [if_neg hl] at h
        by_cases hq : (c.input.take 4).getD 3 0 ≠ c.sequence
        · rw [if_pos hq] at h
          cases h
          exact ⟨rfl, rfl⟩
        · rw [if_neg hq] at h
          generalize (c.input.take 4).getD 0 0 ||| ((c.input.take 4).getD 1 0 <<< 8)
            ||| ((c.input.take 4).getD 2 0 <<< 16) = pktLen at h
          unfold connection.CopyN at h
          simp only [] at h
          by_cases hc : ((c.input.drop 4).take pktLen).length = pktLen
          · simp only [hc, if_true, ne_eq, not_true_eq_false, if_false] at h
            by_cases hm : pktLen < defaultMaxPacketSize
            · rw [if_pos hm] at h
              cases h
              exact ⟨rfl, rfl⟩
            · rw [if_neg hm] at h
              exact ih
                { c with
                  buf := c.buf ++ List.take pktLen (List.drop 4 c.input),
                  input := List.drop pktLen (List.drop 4 c.input),
                  sequence := (c.sequence + 1) % 256 } c1 r h
          · simp only [hc, if_false] at h
            cases h
            exact ⟨rfl, rfl⟩

theorem readPacket_stream (c c1 : connection) (r : Outcome)
    (h : c.readPacket = some (r, c1)) : c1.output = c.output ∧ c1.room = c.room :=
  readPacketLoop_stream (c.input.length / defaultHeaderSize + 1)
    { c with buf := Buffer.Reset c.buf } c1 r h

theorem parseSchema_stream (c : connection) :
    c.parseSchema.2.output = c.output := by
  obtain ⟨s, b, h⟩ := parseSchema_ok c
  rw [h]

theorem parseAuthResp_stream (c : connection) :
    c.parseAuthResp.2.output = c.output := by
  rw [parseAuthResp_eq]
  rcases hb : c.buf with _ | ⟨n, r⟩
  · rfl
  · simp only [Buffer.ReadByte]
    by_cases hl : (r.take n).length ≠ n
    · rw [if_pos hl]
    · rw [if_neg hl, parseSchema_stream]

theorem parseHandshakeResponse41_stream (c : connection) :
    c.parseHandshakeResponse41.2.output = c.output := by
  unfold connection.parseHandshakeResponse41 Buffer.Next
  simp only []
  split
  · rfl
  · split
    · rfl
    · split
      · rfl
      · split
        · split <;> rfl
        · split
          · split <;> rfl
          · split
            · rw [parseAuthResp_stream]
            · rw [parseAuthResp_stream]

theorem handlePlainHandshake_eq (c : connection) (hc : c.cipher.length = 20)
    (hs : c.sequence < 256) (hroom : 55 ≤ c.room) :
    c.handlePlainHandshake =
      match c.awaitingResponse.readPacket with
      | none => none
      | some (Outcome.ok, c) =>
        match c.parseHandshakeResponse41 with
        | (Outcome.ok, c) => c.writeOkPacket
        | (r, c) => some (r, c)
      | some (r, c) => some (r, c) := by
  have hH := handshakePayload_length c.id c.cipher hc
  have hHlt : ({ c with buf := handshakePayload c.id c.cipher } : connection).buf.length
      < defaultMaxPacketSize := by
    show (handshakePayload c.id c.cipher).length < defaultMaxPacketSize
    rw [hH]; decide
  have hr : ({ c with buf := handshakePayload c.id c.cipher } : connection).buf.length + 4
      ≤ ({ c with buf := handshakePayload c.id c.cipher } : connection).room := by
    show (handshakePayload c.id c.cipher).length + 4 ≤ c.room
    rw [hH]; omega
  unfold connection.handlePlainHandshake
  rw [initHandshakeV10_eq c hc]
  simp only []
  rw [writePacket_single { c with buf := handshakePayload c.id c.cipher } hs hHlt hr]
  simp only [hH, Nat.reduceAdd]
  rfl

/-- C25: on a fresh session, when `readPacket` or `parseHandshakeResponse41`
does not succeed on the client's answer, `handlePlainHandshake` ends with that
same outcome and has written the initial-handshake frame and nothing after
it: no OK packet and no ERR packet.  A wrong sequence byte, a truncated
frame, a response without the protocol-41 bit, a username without its NUL
and an authentication response shorter than its length byte each end it with
an error in this way. -/
theorem handlePlainHandshake_failure (c c2 : connection) (r : Outcome)
    (hc : c.cipher.length = 20) (hseq : c.sequence = 0) (hroom : 55 ≤ c.room)
    (hr : r ≠ Outcome.ok) :
    (c.awaitingResponse.readPacket = some (r, c2) →
        c.handlePlainHandshake = some (r, c2)
          ∧ c2.output = c.output ++ (frameHeader 51 0 ++ handshakePayload c.id c.cipher))
      ∧ (c.awaitingResponse.readPacket = some (Outcome.ok, c2) →
        c2.parseHandshakeResponse41.1 = r →
        c.handlePlainHandshake = some (r, c2.parseHandshakeResponse41.2)
          ∧ c2.parseHandshakeResponse41.2.output
            = c.output ++ (frameHeader 51 0 ++ handshakePayload c.id c.cipher))
      ∧ handshakeRun [0x01, 0x00, 0x00, 0x00, 5] = some (Outcome.error
          (Error.Errorf "Connecton/readPacket: sequence number mismatch" []),
          sampleHandshakeFrame)
      ∧ handshakeRun [0x05, 0x00, 0x00, 0x01, 1, 2]
          = some (Outcome.error Error.EOF, sampleHandshakeFrame)
      ∧ handshakeRun (frameHeader 4 1 ++ [0x00, 0x00, 0x00, 0x00])
          = some (Outcome.error Error.errNotProtocol41, sampleHandshakeFrame)
      ∧ handshakeRun (frameHeader 36 1 ++ unterminatedResponse)
          = some (Outcome.error Error.EOF, sampleHandshakeFrame)
      ∧ handshakeRun (frameHeader 40 1 ++ shortAuthResponse) = some (Outcome.error
          (Error.Errorf
            "Connection/readHandshakeResponse41: Insufficient data length. Expect %d, received %d"
            [5, 2]), sampleHandshakeFrame) := by
  have hs : c.sequence < 256 := by rw [hseq]; decide
  have hout : c.awaitingResponse.output
      = c.output ++ (frameHeader 51 0 ++ handshakePayload c.id c.cipher) := by
    simp only [connection.awaitingResponse, hseq]
  refine ⟨?_, ?_, by decide, by decide, by decide, by decide, by decide⟩
  · intro h
    refine ⟨?_, ?_⟩
    · rw [handlePlainHandshake_eq c hc hs hroom, h]
      cases r with
      | ok => exact absurd rfl hr
      | error e => rfl
      | abort => rfl
    · rw [(readPacket_stream _ c2 r h).1, hout]
  · intro h hp
    refine ⟨?_, ?_⟩
    · rw [handlePlainHandshake_eq c hc hs hroom, h]
      simp only []
      rcases hq : c2.parseHandshakeResponse41 with ⟨r2, c3⟩
      rw [hq] at hp
      simp only [] at hp
      subst hp
      cases r2 with
      | ok => exact absurd rfl hr
      | error e => rfl
      | abort => rfl
    · rw [parseHandshakeResponse41_stream, (readPacket_stream _ c2 _ h).1, hout]

theorem handlePlainHandshake_failure_witness :
    (sampleConn (frameHeader 4 1 ++ [0x00, 0x00, 0x00, 0x00]) [] 0 100).handlePlainHandshake
        = some (Outcome.error Error.errNotProtocol41,
          (connection.parseHandshakeResponse41
            { (sampleConn (frameHeader 4 1 ++ [0x00, 0x00, 0x00, 0x00]) [] 0
                100).awaitingResponse with
              buf := [0x00, 0x00, 0x00, 0x00], input := [], sequence := 2 }).2)
      ∧ (connection.parseHandshakeResponse41
            { (sampleConn (frameHeader 4 1 ++ [0x00, 0x00, 0x00, 0x00]) [] 0
                100).awaitingResponse with
              buf := [0x00, 0x00, 0x00, 0x00], input := [], sequence := 2 }).2.output
          = (sampleConn (frameHeader 4 1 ++ [0x00, 0x00, 0x00, 0x00]) [] 0 100).output
            ++ (frameHeader 51 0 ++ handshakePayload
              (sampleConn (frameHeader 4 1 ++ [0x00, 0x00, 0x00, 0x00]) [] 0 100).id
              (sampleConn (frameHeader 4 1 ++ [0x00, 0x00, 0x00, 0x00]) [] 0 100).cipher) :=
  (handlePlainHandshake_failure
    (sampleConn (frameHeader 4 1 ++ [0x00, 0x00, 0x00, 0x00]) [] 0 100)
    { (sampleConn (frameHeader 4 1 ++ [0x00, 0x00, 0x00, 0x00]) [] 0 100).awaitingResponse with
      buf := [0x00, 0x00, 0x00, 0x00], input := [], sequence := 2 }
    (Outcome.error Error.errNotProtocol41)
    (by decide) (by decide) (by decide) (by decide)).2.1 (by decide) (by decide)

end qld
